import Mathlib

/-!
# WiFiConnection: network bootstrap and reconnection of the BME680 sensor node

A shallow embedding of `arduino/WiFiConnection.cpp`.

The class talks to four external collaborators: the radio (`WiFi`), the serial
console (`Serial`), the key-value store (`kv_set`, `kv_get_info`, `kv_get`) and
the millisecond clock (`millis`, `delay`).  None of them lives in the
repository, so each is modelled as a scripted collaborator: `Env` fixes, for
every collaborator, the value its k-th call returns, and `State` counts the
calls made so far and keeps what the program can change (the radio's scan
table, the store content, the trace of effects).

Texts (`const char*`, `String`) are lists of byte values; a buffer is read as
a C string with `cstr`.  `unsigned long` is 32 bits wide on the target, so
clock values are taken modulo `2^32`.

Loops whose exit depends on the collaborators take a fuel argument and
return `none` when it runs out.
-/

namespace WiFiConnection

/-! ## Data -/

/-- The four keys the class uses in the key-value store. -/
inductive Key where
  | networkSsid
  | networkPassword
  | networkBssid
  | serverIp
  deriving DecidableEq, Repr

/-- The key strings of the source. -/
def Key.name : Key → String
  | .networkSsid => "network-ssid"
  | .networkPassword => "network-password"
  | .networkBssid => "network-bssid"
  | .serverIp => "server-ip"

/-- Encryption codes reported by the radio (`WiFi.encryptionType`). -/
inductive EncType where
  | ENC_TYPE_NONE
  | ENC_TYPE_WEP
  | ENC_TYPE_TKIP
  | ENC_TYPE_CCMP
  | ENC_TYPE_AUTO
  | other (code : Nat)
  deriving DecidableEq, Repr

/-- A hardware address, `uint8_t[6]`. -/
structure Bssid where
  b0 : Nat
  b1 : Nat
  b2 : Nat
  b3 : Nat
  b4 : Nat
  b5 : Nat
  deriving DecidableEq, Repr

/-- The six bytes as they are handed to `kv_set`. -/
def Bssid.toBytes (b : Bssid) : List Nat := [b.b0, b.b1, b.b2, b.b3, b.b4, b.b5]

/-- A six-byte buffer filled from the front by `kv_get`; bytes the store does
not provide are taken as 0 (they are uninitialised in the source). -/
def Bssid.ofBytes (l : List Nat) : Bssid :=
  ⟨l.getD 0 0, l.getD 1 0, l.getD 2 0, l.getD 3 0, l.getD 4 0, l.getD 5 0⟩

/-- One row of the radio's scan table. -/
structure AccessPoint where
  ssid : List Nat
  bssid : Bssid
  rssi : Int
  encryption : EncType
  deriving DecidableEq, Repr

instance : Inhabited AccessPoint := ⟨⟨[], ⟨0, 0, 0, 0, 0, 0⟩, 0, .other 255⟩⟩

/-- What a `Serial.print` call prints. -/
inductive Out where
  | text (s : String)
  | bytes (b : List Nat)
  | num (n : Int)
  | hex (n : Nat)
  deriving DecidableEq, Repr

/-- Effects on the collaborators, in the order the program performs them. -/
inductive Event where
  | print (o : Out)
  | println (o : Out)
  | serialBegin (baud : Nat)
  | delay (ms : Nat)
  | scan
  | wifiBegin (ssid password : List Nat)
  | kvSet (key : Key) (value : List Nat) (result : Int)
  | kvGetInfo (key : Key) (result : Int)
  | kvGet (key : Key) (result : Int)
  deriving DecidableEq, Repr

/-- Scripted collaborators: the value returned by the k-th call of each. -/
structure Env where
  /-- Value of the free-running millisecond counter at the k-th `millis()`. -/
  clock : Nat → Nat
  /-- Whether the k-th `WiFi.status()` equals `WL_CONNECTED`. -/
  linkUp : Nat → Bool
  /-- Access points found by the k-th `WiFi.scanNetworks()`. -/
  scans : Nat → List AccessPoint
  /-- Result of the k-th `Serial.available()`. -/
  available : Nat → Int
  /-- Result of the k-th `Serial.read()`. -/
  input : Nat → Int
  /-- Result of the k-th `Serial.parseInt()`. -/
  numbers : Nat → Int
  /-- Storage status of the k-th key-value call, 0 when the storage works. -/
  kvResult : Nat → Int

/-- Calls made so far, and what the program can change. -/
structure State where
  nClock : Nat
  nStatus : Nat
  nScans : Nat
  nAvail : Nat
  nRead : Nat
  nParse : Nat
  nKv : Nat
  /-- The radio's table of the last scan. -/
  networks : List AccessPoint
  /-- Content of the key-value store. -/
  store : Key → Option (List Nat)
  /-- Trace of effects, oldest first. -/
  log : List Event

/-- A fresh node: nothing called, nothing scanned, nothing stored. -/
def State.init : State :=
  ⟨0, 0, 0, 0, 0, 0, 0, [], fun _ => none, []⟩

/-! ## Collaborators -/

/-- The C string held in a buffer: the bytes before the first NUL. -/
def cstr (buf : List Nat) : List Nat := buf.takeWhile (fun b => b != 0)

/-- Conversion of an `int` to `char`. -/
def toChar (r : Int) : Nat := (r % 256).toNat

def emit (e : Event) (s : State) : State :=
  { s with log := s.log ++ [e] }

def Serial.print (o : Out) (s : State) : State := emit (.print o) s

def Serial.println (o : Out) (s : State) : State := emit (.println o) s

def Serial.available (env : Env) (s : State) : Int × State :=
  (env.available s.nAvail, { s with nAvail := s.nAvail + 1 })

def Serial.read (env : Env) (s : State) : Int × State :=
  (env.input s.nRead, { s with nRead := s.nRead + 1 })

def Serial.parseInt (env : Env) (s : State) : Int × State :=
  (env.numbers s.nParse, { s with nParse := s.nParse + 1 })

/-- The counter is an `unsigned long`. -/
def millis (env : Env) (s : State) : Nat × State :=
  (env.clock s.nClock % 4294967296, { s with nClock := s.nClock + 1 })

/-- Unsigned subtraction `now - start`. -/
def elapsed (now start : Nat) : Nat := (now + 4294967296 - start) % 4294967296

def delay (ms : Nat) (s : State) : State := emit (.delay ms) s

/-- The call `WiFi.status() == WL_CONNECTED`. -/
def WiFi.status (env : Env) (s : State) : Bool × State :=
  (env.linkUp s.nStatus, { s with nStatus := s.nStatus + 1 })

/-- A scan replaces the radio's table and returns the number of rows. -/
def WiFi.scanNetworks (env : Env) (s : State) : Int × State :=
  ((env.scans s.nScans).length,
   { s with nScans := s.nScans + 1, networks := env.scans s.nScans, log := s.log ++ [.scan] })

def WiFi.item (s : State) (i : Int) : AccessPoint := s.networks.getD i.toNat default

def WiFi.SSID (s : State) (i : Int) : List Nat := cstr (WiFi.item s i).ssid

def WiFi.BSSID (s : State) (i : Int) : Bssid := (WiFi.item s i).bssid

def WiFi.RSSI (s : State) (i : Int) : Int := (WiFi.item s i).rssi

def WiFi.encryptionType (s : State) (i : Int) : EncType := (WiFi.item s i).encryption

def WiFi.begin (ssid password : List Nat) (s : State) : State :=
  emit (.wifiBegin ssid password) s

def MBED_SUCCESS : Int := 0

/-- Modelled from the spec: the status of a get on a key that was never
written (`NotFound`); the constant itself comes from `mbed_error.h`, which the
repository does not contain. Only its being different from `MBED_SUCCESS`
matters. -/
def MBED_ERROR_ITEM_NOT_FOUND : Int := -2130771642

/-- A put stores the value when the storage works and leaves the store as it
is otherwise. -/
def kv_set (env : Env) (key : Key) (value : List Nat) (s : State) : Int × State :=
  (env.kvResult s.nKv,
   { s with
     nKv := s.nKv + 1,
     store := if env.kvResult s.nKv = MBED_SUCCESS
       then (fun k => if k = key then some value else s.store k) else s.store,
     log := s.log ++ [.kvSet key value (env.kvResult s.nKv)] })

/-- Status of a read access: the storage status, or not-found. -/
def kvReadStatus (env : Env) (key : Key) (s : State) : Int :=
  if env.kvResult s.nKv ≠ MBED_SUCCESS then env.kvResult s.nKv
  else if (s.store key).isSome then MBED_SUCCESS else MBED_ERROR_ITEM_NOT_FOUND

/-- Returns the status and the size of the stored value. -/
def kv_get_info (env : Env) (key : Key) (s : State) : Int × Nat × State :=
  (kvReadStatus env key s,
   ((s.store key).getD []).length,
   { s with nKv := s.nKv + 1, log := s.log ++ [.kvGetInfo key (kvReadStatus env key s)] })

/-- Returns the status and the first `size` bytes of the stored value. -/
def kv_get (env : Env) (key : Key) (size : Nat) (s : State) : Int × List Nat × State :=
  (kvReadStatus env key s,
   ((s.store key).getD []).take size,
   { s with nKv := s.nKv + 1, log := s.log ++ [.kvGet key (kvReadStatus env key s)] })

/-! ## The class -/

/-- Lines 363-378. -/
def getEncryptionType (thisType : EncType) : String :=
  match thisType with
  | .ENC_TYPE_NONE => "Open"
  | .ENC_TYPE_WEP => "WEP"
  | .ENC_TYPE_TKIP => "WPA"
  | .ENC_TYPE_CCMP => "WPA2"
  | .ENC_TYPE_AUTO => "Auto"
  | .other _ => "Unknown"

/-- Lines 36-38. -/
def isConnected (env : Env) (s : State) : Bool × State := WiFi.status env s

/-- Lines 325-329: the address in hexadecimal, colon separated, then a line end. -/
def printBssid (b : Bssid) (s : State) : State :=
  Serial.println (.text "")
    (Serial.print (.hex b.b5) (Serial.print (.text ":")
    (Serial.print (.hex b.b4) (Serial.print (.text ":")
    (Serial.print (.hex b.b3) (Serial.print (.text ":")
    (Serial.print (.hex b.b2) (Serial.print (.text ":")
    (Serial.print (.hex b.b1) (Serial.print (.text ":")
    (Serial.print (.hex b.b0) s)))))))))))

/-- Lines 331-338: the search for the access point with the given address.
The loop condition scans anew before every comparison; the row compared and
the SSID used are those of the latest scan. -/
def connect.scanLoop (env : Env) (bssid : Bssid) (password : List Nat) :
    Nat → Nat → State → Option State
  | 0, _, _ => none
  | fuel + 1, i, s =>
    if (i : Int) < (WiFi.scanNetworks env s).1 then
      if WiFi.BSSID (WiFi.scanNetworks env s).2 i = bssid then
        some (WiFi.begin (WiFi.SSID (WiFi.scanNetworks env s).2 i) password
          (WiFi.scanNetworks env s).2)
      else connect.scanLoop env bssid password fuel (i + 1) (WiFi.scanNetworks env s).2
    else some (WiFi.scanNetworks env s).2

/-- Lines 323-343: the part of `connect` that may issue `WiFi.begin`. -/
def connect.issueBegin (env : Env) (fuel : Nat) (ssid : List Nat) (bssid : Option Bssid)
    (password : List Nat) (s : State) : Option State :=
  match bssid with
  | some b =>
    connect.scanLoop env b password fuel 0
      (printBssid b (Serial.print (.text "Connecting to WiFi network (BSSID): ") s))
  | none =>
    some (WiFi.begin ssid password
      (Serial.println (.bytes ssid) (Serial.print (.text "Connecting to WiFi network (SSID): ") s)))

/-- Lines 346-349: poll the link until it is up or 10000 ms have elapsed. -/
def connect.waitLoop (env : Env) (startAttemptTime : Nat) : Nat → State → Option State
  | 0, _ => none
  | fuel + 1, s =>
    if (WiFi.status env s).1 then some (WiFi.status env s).2
    else if elapsed (millis env (WiFi.status env s).2).1 startAttemptTime < 10000 then
      connect.waitLoop env startAttemptTime fuel
        (Serial.print (.text ".") (delay 500 (millis env (WiFi.status env s).2).2))
    else some (millis env (WiFi.status env s).2).2

/-- Lines 350-354: the outcome line, from a status query of its own. -/
def connect.report (env : Env) (s : State) : State :=
  if (WiFi.status env s).1 then Serial.println (.text "Connected to WiFi") (WiFi.status env s).2
  else Serial.println (.text "Failed to connect to WiFi") (WiFi.status env s).2

/-- Lines 345-355: the wait for the link and the outcome line. -/
def connect.awaitLink (env : Env) (fuel : Nat) (s : State) : Option State :=
  (connect.waitLoop env (millis env s).1 fuel (millis env s).2).map (connect.report env)

/-- Lines 322-355. -/
def connect (env : Env) (fuel : Nat) (ssid : List Nat) (bssid : Option Bssid)
    (password : List Nat) (s : State) : Option State :=
  (connect.issueBegin env fuel ssid bssid password s).bind (connect.awaitLink env fuel)

/-- Lines 257-313. Buffers handed to `connect` are read as C strings. The
message of lines 309-310 is broken over two lines in the source and is taken
as one line here. -/
def connectToSavedNetwork (env : Env) (fuel : Nat) (s : State) : Option State :=
  let ri := kv_get_info env .networkSsid s
  if ri.1 ≠ MBED_SUCCESS then
    some (Serial.println (.num ri.1)
      (Serial.print (.text "Failed to read SSID info with error code ") ri.2.2))
  else
  let rs := kv_get env .networkSsid ri.2.1 ri.2.2
  if rs.1 ≠ MBED_SUCCESS then
    some (Serial.println (.num rs.1)
      (Serial.print (.text "Failed to read SSID with error code ") rs.2.2))
  else
  let pi := kv_get_info env .networkPassword rs.2.2
  if pi.1 ≠ MBED_SUCCESS then
    some (Serial.println (.num pi.1)
      (Serial.print (.text "Failed to read password info with error code ") pi.2.2))
  else
  let ps := kv_get env .networkPassword pi.2.1 pi.2.2
  if ps.1 ≠ MBED_SUCCESS then
    some (Serial.println (.num ps.1)
      (Serial.print (.text "Failed to read password with error code ") ps.2.2))
  else
  let bi := kv_get_info env .networkBssid ps.2.2
  if bi.1 = MBED_SUCCESS then
    let bs := kv_get env .networkBssid 6 bi.2.2
    if bs.1 ≠ MBED_SUCCESS then
      connect env fuel (cstr rs.2.1) none (cstr ps.2.1)
        (Serial.println (.text "BSSID not available, attempting connection using SSID...")
          (Serial.println (.num bs.1)
            (Serial.print (.text "Failed to read BSSID with error code ") bs.2.2)))
    else
      connect env fuel (cstr rs.2.1) (some (Bssid.ofBytes bs.2.1)) (cstr ps.2.1)
        (Serial.println (.text "Attempting connection using saved BSSID...") bs.2.2)
  else
    connect env fuel (cstr rs.2.1) none (cstr ps.2.1)
      (Serial.println (.text "BSSID not available, attempting connection using SSID...") bi.2.2)

/-- Lines 24-29. -/
def connectToWiFi (env : Env) (fuel : Nat) (s : State) : Option State :=
  if (WiFi.status env s).1 then some (WiFi.status env s).2
  else
    connectToSavedNetwork env fuel
      (Serial.println (.text "WiFi not connected. Attempting to connect...") (WiFi.status env s).2)

/-- Lines 45-60. -/
def getServerIPAddress (env : Env) (s : State) : List Nat × State :=
  let ri := kv_get_info env .serverIp s
  if ri.1 ≠ MBED_SUCCESS then
    ([], Serial.println (.text "Failed to read server IP") ri.2.2)
  else
  let rs := kv_get env .serverIp ri.2.1 ri.2.2
  if rs.1 ≠ MBED_SUCCESS then
    ([], Serial.println (.text "Failed to read server IP") rs.2.2)
  else (cstr rs.2.1, rs.2.2)

/-- Lines 108-115: one row of the listing. -/
def scanNetworks.row (s : State) (i : Nat) : State :=
  delay 10
    (Serial.println (.text (getEncryptionType (WiFi.encryptionType s i)))
    (Serial.print (.text " dBm) ")
    (Serial.print (.num (WiFi.RSSI s i))
    (Serial.print (.text " (")
    (Serial.print (.bytes (WiFi.SSID s i))
    (Serial.print (.text ": ")
    (Serial.print (.num (i + 1)) s)))))))

/-- Lines 99-118. -/
def scanNetworks (env : Env) (s : State) : State :=
  let r := WiFi.scanNetworks env s
  let s1 := Serial.println (.text "Scan complete") r.2
  if r.1 = 0 then Serial.println (.text "No networks found") s1
  else
    (List.range r.1.toNat).foldl scanNetworks.row
      (Serial.println (.text " networks found:") (Serial.print (.num r.1) s1))

/-- Lines 127-138: the selection loop. The scan of the range check is made
only for a positive number; `s` is compared with the `int` that
`Serial.read` returns. -/
def selectNetwork.loop (env : Env) : Nat → State → Option (Int × State)
  | 0, _ => none
  | fuel + 1, s =>
    if (Serial.available env s).1 > 0 then
      let r := Serial.parseInt env (Serial.available env s).2
      if r.1 > 0 then
        if r.1 ≤ (WiFi.scanNetworks env r.2).1 then
          some (r.1 - 1,
            Serial.println (.bytes (WiFi.SSID (WiFi.scanNetworks env r.2).2 (r.1 - 1)))
              (Serial.print (.text "Selected network: ") (WiFi.scanNetworks env r.2).2))
        else if (Serial.read env (WiFi.scanNetworks env r.2).2).1 = 115 then
          some (-1, (Serial.read env (WiFi.scanNetworks env r.2).2).2)
        else selectNetwork.loop env fuel (Serial.read env (WiFi.scanNetworks env r.2).2).2
      else if (Serial.read env r.2).1 = 115 then some (-1, (Serial.read env r.2).2)
      else selectNetwork.loop env fuel (Serial.read env r.2).2
    else selectNetwork.loop env fuel (Serial.available env s).2

/-- Lines 125-139. -/
def selectNetwork (env : Env) (fuel : Nat) (s : State) : Option (Int × State) :=
  selectNetwork.loop env fuel
    (Serial.println
      (.text "Enter the number of the network you want to connect to (or press 's' to skip): ") s)

/-- Lines 144-148. -/
def clearSerialBuffer (env : Env) : Nat → State → Option State
  | 0, _ => none
  | fuel + 1, s =>
    if (Serial.available env s).1 > 0 then
      clearSerialBuffer env fuel (Serial.read env (Serial.available env s).2).2
    else some (Serial.available env s).2

/-- Lines 158-167 and 182-191: read characters up to a line end. -/
def readLine (env : Env) : Nat → List Nat → State → Option (List Nat × State)
  | 0, _, _ => none
  | fuel + 1, acc, s =>
    if (Serial.available env s).1 > 0 then
      let r := Serial.read env (Serial.available env s).2
      if toChar r.1 = 10 ∨ toChar r.1 = 13 then some (acc, r.2)
      else readLine env fuel (acc ++ [toChar r.1]) r.2
    else readLine env fuel acc (Serial.available env s).2

/-- Lines 155-172. -/
def getPassword (env : Env) (fuel : Nat) (s : State) : Option (List Nat × State) :=
  (readLine env fuel [] (Serial.println (.text "Enter the password for the network: ") s)).bind
    fun r => (clearSerialBuffer env fuel r.2).map
      fun s1 => (r.1, Serial.println (.bytes r.1) (Serial.print (.text "Password entered: ") s1))

/-- Lines 179-196. -/
def getServerIP (env : Env) (fuel : Nat) (s : State) : Option (List Nat × State) :=
  (readLine env fuel [] (Serial.println (.text "Enter the server IP address: ") s)).bind
    fun r => (clearSerialBuffer env fuel r.2).map
      fun s1 => (r.1, Serial.println (.bytes r.1) (Serial.print (.text "Server IP entered: ") s1))

/-- The four values handed to `kv_set`, in the order of lines 212-230: the
SSID and the two texts with their terminating NUL, the address as 6 bytes. -/
def plannedPuts (ssid : List Nat) (bssid : Bssid) (password serverIP : List Nat) :
    List (Key × List Nat) :=
  [(.networkSsid, ssid ++ [0]), (.networkPassword, password ++ [0]),
   (.networkBssid, bssid.toBytes), (.serverIp, serverIP ++ [0])]

/-- Lines 206-235: the four puts; the flag tells whether all succeeded. -/
def saveNetworkCredentials.puts (env : Env) (networkIndex : Int) (password serverIP : List Nat)
    (s : State) : Bool × State :=
  let r1 := kv_set env .networkSsid (WiFi.SSID s networkIndex ++ [0]) s
  if r1.1 ≠ MBED_SUCCESS then
    (false, Serial.println (.num r1.1)
      (Serial.print (.text "Failed to save SSID with error code ") r1.2))
  else
  let r2 := kv_set env .networkPassword (password ++ [0]) r1.2
  if r2.1 ≠ MBED_SUCCESS then
    (false, Serial.println (.num r2.1)
      (Serial.print (.text "Failed to save password with error code ") r2.2))
  else
  let r3 := kv_set env .networkBssid (WiFi.BSSID s networkIndex).toBytes r2.2
  if r3.1 ≠ MBED_SUCCESS then
    (false, Serial.println (.num r3.1)
      (Serial.print (.text "Failed to save BSSID with error code ") r3.2))
  else
  let r4 := kv_set env .serverIp (serverIP ++ [0]) r3.2
  if r4.1 ≠ MBED_SUCCESS then
    (false, Serial.println (.num r4.1)
      (Serial.print (.text "Failed to save server IP with error code ") r4.2))
  else (true, r4.2)

/-- Lines 237-249: the summary printed after four successful puts. -/
def saveNetworkCredentials.summary (ssid : List Nat) (bssid : Bssid)
    (password serverIP : List Nat) (s : State) : State :=
  Serial.println (.bytes serverIP) (Serial.print (.text "Server IP: ")
    (printBssid bssid (Serial.print (.text "BSSID: ")
    (Serial.println (.bytes password) (Serial.print (.text "Password: ")
    (Serial.println (.bytes ssid) (Serial.print (.text "SSID: ")
    (Serial.println (.text "Credentials saved successfully:") s))))))))

/-- Lines 205-252. After four successful puts the function itself calls
`connect` with the address of the selected row. -/
def saveNetworkCredentials (env : Env) (fuel : Nat) (networkIndex : Int)
    (password serverIP : List Nat) (s : State) : Option State :=
  let r := saveNetworkCredentials.puts env networkIndex password serverIP s
  if r.1 then
    connect env fuel (WiFi.SSID s networkIndex) (some (WiFi.BSSID s networkIndex)) (cstr password)
      (saveNetworkCredentials.summary (WiFi.SSID s networkIndex) (WiFi.BSSID s networkIndex)
        password serverIP r.2)
  else some r.2

/-- Lines 70-91: the trigger window. Returns `true` once the character `n`
has been read while less than 10000 ms have elapsed, `false` when the window
has elapsed. -/
def promptForNetworkSelection.awaitTrigger (env : Env) (startAttemptTime : Nat) :
    Nat → State → Option (Bool × State)
  | 0, _ => none
  | fuel + 1, s =>
    if elapsed (millis env s).1 startAttemptTime < 10000 then
      if (Serial.available env (millis env s).2).1 > 0 then
        let r := Serial.read env (Serial.available env (millis env s).2).2
        if toChar r.1 = 110 then some (true, r.2)
        else promptForNetworkSelection.awaitTrigger env startAttemptTime fuel r.2
      else
        promptForNetworkSelection.awaitTrigger env startAttemptTime fuel
          (Serial.available env (millis env s).2).2
    else some (false, (millis env s).2)

/-- Lines 74-88: what follows the trigger character. -/
def promptForNetworkSelection.provision (env : Env) (fuel : Nat) (s : State) : Option State :=
  (selectNetwork env fuel
      (scanNetworks env (Serial.println (.text "Scanning for networks...") s))).bind
    fun sel =>
      if sel.1 ≠ -1 then
        (clearSerialBuffer env fuel sel.2).bind fun s1 =>
        (getPassword env fuel s1).bind fun pw =>
        (getServerIP env fuel pw.2).bind fun ip =>
        (saveNetworkCredentials env fuel sel.1 pw.1 ip.1 ip.2).bind fun s2 =>
        connectToSavedNetwork env fuel
          (Serial.println (.text "Network credentials saved. Attempting to connect...") s2)
      else
        connectToSavedNetwork env fuel
          (Serial.println
            (.text "Skipped network selection. Will attempt to use saved credentials if available.")
            sel.2)

/-- Lines 67-94. -/
def promptForNetworkSelection (env : Env) (fuel : Nat) (s : State) : Option State :=
  let s0 := Serial.println (.text "Press 'n' within 10 seconds to select a new network.") s
  (promptForNetworkSelection.awaitTrigger env (millis env s0).1 fuel (millis env s0).2).bind
    fun t =>
      if t.1 then promptForNetworkSelection.provision env fuel t.2
      else
        connectToSavedNetwork env fuel
          (Serial.println (.text "Timeout reached. Using saved credentials.") t.2)

/-- Lines 15-19. -/
def setup (env : Env) (fuel : Nat) (s : State) : Option State :=
  promptForNetworkSelection env fuel (delay 1000 (emit (.serialBegin 115200) s))

/-! ## Observations on traces -/

/-- The puts recorded in a trace: key, value and status of each `kv_set`. -/
def kvSets (log : List Event) : List (Key × List Nat × Int) :=
  log.filterMap fun e => match e with
    | .kvSet k v r => some (k, v, r)
    | _ => none

/-- The `WiFi.begin` calls recorded in a trace: SSID and password of each. -/
def begins (log : List Event) : List (List Nat × List Nat) :=
  log.filterMap fun e => match e with
    | .wifiBegin a p => some (a, p)
    | _ => none

/-- The line with which `connect` announces itself on entry (lines 324 and
340); every call prints exactly one of the two. -/
def Event.isConnectEntry : Event → Bool
  | .print (.text t) =>
    t == "Connecting to WiFi network (BSSID): " || t == "Connecting to WiFi network (SSID): "
  | _ => false

/-- Number of `connect` calls recorded in a trace. -/
def connectCalls (log : List Event) : Nat := (log.filter Event.isConnectEntry).length

/-- A put, or one of the two credential prompts of lines 156 and 180. -/
def Event.isProvisioning : Event → Bool
  | .kvSet _ _ _ => true
  | .println (.text t) =>
    t == "Enter the password for the network: " || t == "Enter the server IP address: "
  | _ => false

/-- The effects performed between `s` and a later state `s1`. -/
def newEvents (s s1 : State) : List Event := s1.log.drop s.log.length

/-- From `s` to `s1` the store is left alone and the trace only grows, by
effects that are neither a put nor a credential prompt. -/
def Quiet (s s1 : State) : Prop :=
  s1.store = s.store ∧ s1.log = s.log ++ newEvents s s1 ∧
    ∀ e ∈ newEvents s s1, e.isProvisioning = false

/-- Position of the first failing status among the first `n` entries of a
script, `n` when all succeed. -/
def firstFailure (r : Nat → Int) : Nat → Nat
  | 0 => 0
  | n + 1 => if r 0 = MBED_SUCCESS then firstFailure (fun j => r (j + 1)) n + 1 else 0

/-- Planned puts paired with the status the storage gives to each. -/
def withResults (planned : List (Key × List Nat)) (r : Nat → Int) :
    List (Key × List Nat × Int) :=
  planned.enum.map fun p => (p.2.1, p.2.2, r p.1)

/-- The trace of `k` rounds of the link wait: a delay and a dot each. -/
def waitTrace (k : Nat) : List Event :=
  (List.replicate k [Event.delay 500, Event.print (.text ".")]).flatten

/-- The outcome line of `connect` for a given result of its last status query. -/
def outcomeLine (up : Bool) : Event :=
  if up then .println (.text "Connected to WiFi") else .println (.text "Failed to connect to WiFi")

/-- The entry `key` can be read by a `kv_get_info` and a `kv_get` made as the
`n`-th and `n+1`-th key-value calls: it is present and neither call meets a
storage error. -/
def Readable (env : Env) (s : State) (key : Key) (n : Nat) : Prop :=
  (s.store key).isSome = true ∧ env.kvResult n = MBED_SUCCESS ∧ env.kvResult (n + 1) = MBED_SUCCESS

instance (env : Env) (s : State) (key : Key) (n : Nat) : Decidable (Readable env s key n) := by
  unfold Readable; infer_instance

/-! ## Scenarios -/

/-- The access point of the scenario: `HomeNet`, AA:BB:CC:DD:EE:FF, -40 dBm, WPA2. -/
def homeNet : AccessPoint :=
  ⟨[72, 111, 109, 101, 78, 101, 116], ⟨170, 187, 204, 221, 238, 255⟩, -40, .ENC_TYPE_CCMP⟩

/-- A second, open access point: `Guest`, 02:00:00:00:00:01. -/
def guestNet : AccessPoint :=
  ⟨[71, 117, 101, 115, 116], ⟨2, 0, 0, 0, 0, 1⟩, -70, .ENC_TYPE_NONE⟩

/-- The password `secret`. -/
def secret : List Nat := [115, 101, 99, 114, 101, 116]

/-- The server address `10.0.0.5`. -/
def serverAddress : List Nat := [49, 48, 46, 48, 46, 48, 46, 53]

/-- A working node with the link down: the clock advances 500 ms per reading,
both access points are in range, the console is silent, the storage works. -/
def envDown : Env :=
  { clock := fun k => 500 * k
    linkUp := fun _ => false
    scans := fun _ => [guestNet, homeNet]
    available := fun _ => 0
    input := fun _ => -1
    numbers := fun _ => 0
    kvResult := fun _ => 0 }

/-- The operator waits two polls and then enters `2`. -/
def envSelect : Env :=
  { envDown with
    available := fun k => if k < 2 then 0 else 1
    numbers := fun _ => 2 }

/-- The storage fails at the third key-value call. -/
def envThirdPutFails : Env :=
  { envDown with kvResult := fun k => if k = 2 then -1 else 0 }

/-- A state in which the radio's table holds the scenario's scan. -/
def stateScanned : State := { State.init with networks := [homeNet] }

/-- The link is reported up by the first poll of the wait and down by the
status query that follows it. -/
def envFlap : Env :=
  { envDown with linkUp := fun k => decide (k = 0) }

/-- The link is up already; only the guest access point is in range. -/
def envUp : Env :=
  { envDown with
    linkUp := fun _ => true
    scans := fun _ => [guestNet] }

/-- The link comes up at the poll made 9999 ms after the start: the clock
reads 499, 999, ..., 9999 at the polls. -/
def envLate : Env :=
  { envDown with
    clock := fun k => 500 * k - 1
    linkUp := fun k => decide (19 ≤ k) }

/-- Every clock reading is a whole counter period (2^32 ms) after the one
before, so the 32-bit counter shows the same value each time. -/
def envWrap : Env :=
  { envDown with clock := fun k => k * 4294967296 }

/-- The counter wraps during the wait: it starts 296 ms before 2^32 and
advances 600 ms per reading. -/
def envNearWrap : Env :=
  { envDown with clock := fun k => 4294967000 + 600 * k }

/-- A node that has saved SSID and password but no address. -/
def stateNoBssid : State :=
  { State.init with
    store := fun k => match k with
      | .networkSsid => some [72, 111, 109, 101, 78, 101, 116, 0]
      | .networkPassword => some [115, 101, 99, 114, 101, 116, 0]
      | _ => none }

/-- The operator presses `n` at once and then `s`. -/
def envSkip : Env :=
  { envDown with
    clock := fun _ => 0
    available := fun _ => 1
    input := fun k => if k = 0 then 110 else 115 }

/-! # Lemmas -/

/-! ## Lemmas on texts and traces -/

theorem cstr_append_nul (l r : List Nat) (h : 0 ∉ l) : cstr (l ++ 0 :: r) = l := by
  induction l with
  | nil => simp [cstr]
  | cons a t ih =>
    have ha : a ≠ 0 := fun h0 => h (by simp [h0])
    have ht : 0 ∉ t := fun h0 => h (by simp [h0])
    have := ih ht
    simp only [cstr] at this ⊢
    simp [List.takeWhile_cons, ha, this]

theorem cstr_nul_free (l : List Nat) (h : 0 ∉ l) : cstr l = l := by
  have := cstr_append_nul l [] h
  induction l with
  | nil => simp [cstr]
  | cons a t ih =>
    have ha : a ≠ 0 := fun h0 => h (by simp [h0])
    have ht : 0 ∉ t := fun h0 => h (by simp [h0])
    have h2 := ih ht (cstr_append_nul t [] ht)
    simp only [cstr] at h2 ⊢
    simp [List.takeWhile_cons, ha, h2]

theorem kvSets_append (a b : List Event) : kvSets (a ++ b) = kvSets a ++ kvSets b := by
  simp [kvSets, List.filterMap_append]

theorem begins_append (a b : List Event) : begins (a ++ b) = begins a ++ begins b := by
  simp [begins, List.filterMap_append]

theorem connectCalls_append (a b : List Event) :
    connectCalls (a ++ b) = connectCalls a + connectCalls b := by
  simp [connectCalls, List.filter_append]

theorem kvSets_of_quiet (evs : List Event) (h : ∀ e ∈ evs, e.isProvisioning = false) :
    kvSets evs = [] := by
  induction evs with
  | nil => rfl
  | cons e t ih =>
    have he := h e (by simp)
    have ht := ih (fun x hx => h x (by simp [hx]))
    cases e <;> simp_all [kvSets, Event.isProvisioning]

theorem waitTrace_succ (k : Nat) :
    waitTrace (k + 1) = Event.delay 500 :: Event.print (.text ".") :: waitTrace k := by
  simp [waitTrace, List.replicate_succ]

theorem Quiet.refl (s : State) : Quiet s s := by simp [Quiet, newEvents]

theorem Quiet.trans {s s1 s2 : State} (h1 : Quiet s s1) (h2 : Quiet s1 s2) : Quiet s s2 := by
  obtain ⟨a1, b1, c1⟩ := h1
  obtain ⟨a2, b2, c2⟩ := h2
  have hn : newEvents s s2 = newEvents s s1 ++ newEvents s1 s2 := by
    simp only [newEvents]
    conv_lhs => rw [b2, b1]
    simp only [newEvents, List.append_assoc, List.drop_left]
  refine ⟨a2.trans a1, ?_, ?_⟩
  · rw [hn, ← List.append_assoc, ← b1, ← b2]
  · intro e he
    rw [hn, List.mem_append] at he
    rcases he with he | he
    · exact c1 e he
    · exact c2 e he

theorem newEvents_append {s s1 s2 : State} (x : List Event)
    (h1 : s1.log = s.log ++ newEvents s s1) (h2 : s2.log = s1.log ++ x) :
    newEvents s s2 = newEvents s s1 ++ x := by
  simp only [newEvents]
  conv_lhs => rw [h2, h1]
  simp only [newEvents, List.append_assoc, List.drop_left]

theorem Quiet.kvSets_eq {s s1 : State} (h : Quiet s s1) : kvSets s1.log = kvSets s.log := by
  rw [h.2.1, kvSets_append, kvSets_of_quiet _ h.2.2, List.append_nil]

/-! ## The link wait -/

/-- Link wait ended by a poll that reports the link up, after `k` rounds. -/
theorem waitLoop_up (env : Env) (start : Nat) :
    ∀ (k fuel : Nat) (s : State), k < fuel →
      (∀ j, j < k → env.linkUp (s.nStatus + j) = false ∧
        elapsed (env.clock (s.nClock + j) % 4294967296) start < 10000) →
      env.linkUp (s.nStatus + k) = true →
      connect.waitLoop env start fuel s =
        some { s with nStatus := s.nStatus + k + 1, nClock := s.nClock + k,
                      log := s.log ++ waitTrace k } := by
  intro k
  induction k with
  | zero =>
    intro fuel s hf _ hup
    obtain ⟨f, rfl⟩ : ∃ f, fuel = f + 1 := ⟨fuel - 1, by omega⟩
    simp at hup
    simp [connect.waitLoop, WiFi.status, hup, waitTrace]
  | succ k ih =>
    intro fuel s hf hdown hup
    obtain ⟨f, rfl⟩ : ∃ f, fuel = f + 1 := ⟨fuel - 1, by omega⟩
    have h0 := hdown 0 (by omega)
    simp at h0
    have := ih f (Serial.print (.text ".") (delay 500 (millis env (WiFi.status env s).2).2))
      (by omega)
      (by
        intro j hj
        have := hdown (j + 1) (by omega)
        simpa [Serial.print, delay, emit, millis, WiFi.status, Nat.add_assoc, Nat.add_comm 1 j]
          using this)
      (by simpa [Serial.print, delay, emit, millis, WiFi.status, Nat.add_assoc,
            Nat.add_comm 1 k] using hup)
    simp only [connect.waitLoop]
    simp [WiFi.status, millis, h0.1, h0.2] at this ⊢
    rw [this]
    simp [Serial.print, delay, emit, waitTrace_succ, Nat.add_assoc, Nat.add_comm 1 k]

/-- Link wait ended by the clock, after `k` rounds. -/
theorem waitLoop_timeout (env : Env) (start : Nat) :
    ∀ (k fuel : Nat) (s : State), k < fuel →
      (∀ j, j < k → env.linkUp (s.nStatus + j) = false ∧
        elapsed (env.clock (s.nClock + j) % 4294967296) start < 10000) →
      env.linkUp (s.nStatus + k) = false →
      10000 ≤ elapsed (env.clock (s.nClock + k) % 4294967296) start →
      connect.waitLoop env start fuel s =
        some { s with nStatus := s.nStatus + k + 1, nClock := s.nClock + k + 1,
                      log := s.log ++ waitTrace k } := by
  intro k
  induction k with
  | zero =>
    intro fuel s hf _ hdn ht
    obtain ⟨f, rfl⟩ : ∃ f, fuel = f + 1 := ⟨fuel - 1, by omega⟩
    simp at hdn ht
    simp [connect.waitLoop, WiFi.status, millis, hdn, waitTrace, Nat.not_lt.mpr ht]
  | succ k ih =>
    intro fuel s hf hdown hdn ht
    obtain ⟨f, rfl⟩ : ∃ f, fuel = f + 1 := ⟨fuel - 1, by omega⟩
    have h0 := hdown 0 (by omega)
    simp at h0
    have := ih f (Serial.print (.text ".") (delay 500 (millis env (WiFi.status env s).2).2))
      (by omega)
      (by
        intro j hj
        have := hdown (j + 1) (by omega)
        simpa [Serial.print, delay, emit, millis, WiFi.status, Nat.add_assoc, Nat.add_comm 1 j]
          using this)
      (by simpa [Serial.print, delay, emit, millis, WiFi.status, Nat.add_assoc,
            Nat.add_comm 1 k] using hdn)
      (by simpa [Serial.print, delay, emit, millis, WiFi.status, Nat.add_assoc,
            Nat.add_comm 1 k] using ht)
    simp only [connect.waitLoop]
    simp [WiFi.status, millis, h0.1, h0.2] at this ⊢
    rw [this]
    simp [Serial.print, delay, emit, waitTrace_succ, Nat.add_assoc, Nat.add_comm 1 k]

/-- One delay of at least 500 ms and at most 2^32 - 10000 ms moves an elapsed
time below 10000 ms forward by at least 500 ms, counter wrap-around included. -/
theorem elapsed_step (c c1 start : Nat) (hs : start < 4294967296)
    (h1 : c + 500 ≤ c1) (h2 : c1 ≤ c + 4294957296)
    (he : elapsed (c % 4294967296) start < 10000) :
    elapsed (c % 4294967296) start + 500 ≤ elapsed (c1 % 4294967296) start := by
  unfold elapsed at *
  omega

theorem elapsed_reaches (clock : Nat → Nat) (c start : Nat) (hs : start < 4294967296)
    (hadv : ∀ j, clock (c + j) + 500 ≤ clock (c + j + 1) ∧
      clock (c + j + 1) ≤ clock (c + j) + 4294957296) :
    ∃ j, j ≤ 20 ∧ 10000 ≤ elapsed (clock (c + j) % 4294967296) start := by
  by_contra hno
  push_neg at hno
  have key : ∀ j, j ≤ 20 → 500 * j ≤ elapsed (clock (c + j) % 4294967296) start := by
    intro j
    induction j with
    | zero => intro _; simp
    | succ j ih =>
      intro hj
      have h1 := ih (by omega)
      have h2 := hno j (by omega)
      have h3 := elapsed_step (clock (c + j)) (clock (c + j + 1)) start hs (hadv j).1 (hadv j).2 h2
      have : c + (j + 1) = c + j + 1 := by omega
      rw [this]
      omega
  have := key 20 (le_refl _)
  have := hno 20 (le_refl _)
  omega

/-- Under a clock that advances by 500 to 2^32 - 10000 ms across each delay the
link wait ends within 20 rounds, at the first poll that finds the link up or
the first clock reading that shows 10000 ms or more. -/
theorem waitLoop_within_budget (env : Env) (start fuel : Nat) (s : State)
    (hs : start < 4294967296) (hfuel : 20 < fuel)
    (hadv : ∀ j, env.clock (s.nClock + j) + 500 ≤ env.clock (s.nClock + j + 1) ∧
      env.clock (s.nClock + j + 1) ≤ env.clock (s.nClock + j) + 4294957296) :
    ∃ k s', k ≤ 20 ∧ connect.waitLoop env start fuel s = some s' ∧
      s'.log = s.log ++ waitTrace k ∧ s'.store = s.store ∧ s'.nStatus = s.nStatus + k + 1 ∧
      (∀ j, j < k → env.linkUp (s.nStatus + j) = false ∧
        elapsed (env.clock (s.nClock + j) % 4294967296) start < 10000) ∧
      (env.linkUp (s.nStatus + k) = true ∨
        10000 ≤ elapsed (env.clock (s.nClock + k) % 4294967296) start) := by
  classical
  have hex : ∃ j, env.linkUp (s.nStatus + j) = true ∨
      10000 ≤ elapsed (env.clock (s.nClock + j) % 4294967296) start := by
    obtain ⟨j, _, hj⟩ := elapsed_reaches env.clock s.nClock start hs hadv
    exact ⟨j, Or.inr hj⟩
  have hk20 : Nat.find hex ≤ 20 := by
    obtain ⟨j, hj20, hj⟩ := elapsed_reaches env.clock s.nClock start hs hadv
    exact le_trans (Nat.find_min' hex (Or.inr hj)) hj20
  have hmin : ∀ j, j < Nat.find hex → env.linkUp (s.nStatus + j) = false ∧
      elapsed (env.clock (s.nClock + j) % 4294967296) start < 10000 := by
    intro j hj
    have := Nat.find_min hex hj
    push_neg at this
    exact ⟨by simpa using this.1, this.2⟩
  have hspec := Nat.find_spec hex
  by_cases hup : env.linkUp (s.nStatus + Nat.find hex) = true
  · exact ⟨_, _, hk20, waitLoop_up env start _ fuel s (by omega) hmin hup, rfl, rfl, rfl, hmin,
      Or.inl hup⟩
  · have hdn : env.linkUp (s.nStatus + Nat.find hex) = false := by simpa using hup
    have ht := hspec.resolve_left hup
    exact ⟨_, _, hk20, waitLoop_timeout env start _ fuel s (by omega) hmin hdn ht, rfl, rfl, rfl,
      hmin, Or.inr ht⟩

theorem waitLoop_quiet (env : Env) (start : Nat) :
    ∀ (fuel : Nat) (s s1 : State), connect.waitLoop env start fuel s = some s1 → Quiet s s1 := by
  intro fuel
  induction fuel with
  | zero => intro s s1 h; simp [connect.waitLoop] at h
  | succ f ih =>
    intro s s1 h
    simp only [connect.waitLoop] at h
    split_ifs at h with h1 h2
    · cases h; simp [Quiet, newEvents, WiFi.status]
    · refine Quiet.trans ?_ (ih _ _ h)
      simp [Quiet, newEvents, WiFi.status, millis, delay, Serial.print, emit,
        Event.isProvisioning]
    · cases h; simp [Quiet, newEvents, WiFi.status, millis]

/-! ## The search for the saved address -/

theorem scanLoop_quiet (env : Env) (b : Bssid) (pw : List Nat) :
    ∀ (fuel i : Nat) (s s1 : State), connect.scanLoop env b pw fuel i s = some s1 →
      Quiet s s1 := by
  intro fuel
  induction fuel with
  | zero => intro i s s1 h; simp [connect.scanLoop] at h
  | succ f ih =>
    intro i s s1 h
    simp only [connect.scanLoop] at h
    split_ifs at h with h1 h2
    · cases h; simp [Quiet, newEvents, WiFi.scanNetworks, WiFi.begin, emit, Event.isProvisioning]
    · refine Quiet.trans ?_ (ih _ _ _ h)
      simp [Quiet, newEvents, WiFi.scanNetworks, Event.isProvisioning]
    · cases h; simp [Quiet, newEvents, WiFi.scanNetworks, Event.isProvisioning]

theorem connect_quiet (env : Env) (fuel : Nat) (ssid : List Nat) (bssid : Option Bssid)
    (pw : List Nat) (s s1 : State) (h : connect env fuel ssid bssid pw s = some s1) :
    Quiet s s1 := by
  simp only [connect, Option.bind_eq_some] at h
  obtain ⟨s2, h2, h3⟩ := h
  simp only [connect.awaitLink, Option.map_eq_some'] at h3
  obtain ⟨s3, h4, rfl⟩ := h3
  have hA : Quiet s s2 := by
    cases bssid with
    | none =>
      simp only [connect.issueBegin, Option.some.injEq] at h2
      subst h2
      simp [Quiet, newEvents, WiFi.begin, Serial.print, Serial.println, emit,
        Event.isProvisioning]
    | some b =>
      simp only [connect.issueBegin] at h2
      refine Quiet.trans ?_ (scanLoop_quiet _ _ _ _ _ _ _ h2)
      simp [Quiet, newEvents, printBssid, Serial.print, Serial.println, emit,
        Event.isProvisioning]
  have hB : Quiet s2 s3 := by
    refine Quiet.trans ?_ (waitLoop_quiet _ _ _ _ _ h4)
    simp [Quiet, newEvents, millis]
  refine (hA.trans hB).trans ?_
  simp only [connect.report]
  split_ifs <;>
    simp [Quiet, newEvents, WiFi.status, Serial.println, emit, Event.isProvisioning]

theorem kvReadStatus_eq_zero (env : Env) (key : Key) (s : State) :
    kvReadStatus env key s = 0 ↔ env.kvResult s.nKv = 0 ∧ (s.store key).isSome = true := by
  unfold kvReadStatus MBED_SUCCESS MBED_ERROR_ITEM_NOT_FOUND
  split_ifs with h1 h2 <;> simp_all

/-- Reconnection without a readable SSID or password entry ends before any
`connect`, scan or status query. -/
theorem connectToSavedNetwork_unreadable (env : Env) (fuel : Nat) (s : State)
    (h : ¬ (Readable env s .networkSsid s.nKv ∧ Readable env s .networkPassword (s.nKv + 2))) :
    ∃ s1, connectToSavedNetwork env fuel s = some s1 ∧ Quiet s s1 ∧
      s1.nScans = s.nScans ∧ s1.nStatus = s.nStatus ∧ s1.networks = s.networks ∧
      connectCalls (newEvents s s1) = 0 ∧ begins (newEvents s s1) = [] := by
  unfold connectToSavedNetwork
  simp only []
  split_ifs with c1 c2 c3 c4 c5 c6
  any_goals
    refine ⟨_, rfl, ?_⟩
    simp [Quiet, newEvents, kv_get_info, kv_get, Serial.print, Serial.println, emit,
      Event.isProvisioning, connectCalls, Event.isConnectEntry, begins]
  all_goals
    exfalso; apply h
    simp only [kv_get_info, kv_get, MBED_SUCCESS, ne_eq, not_not, kvReadStatus_eq_zero] at c1 c2 c3 c4
    simp [Readable, MBED_SUCCESS, c1.1, c1.2, c2.1, c3.1, c3.2, c4.1, Nat.add_assoc]

/-- Reconnection with readable SSID and password entries calls `connect` with
the two C strings read, and with the saved address when that entry is
readable too. -/
theorem connectToSavedNetwork_readable (env : Env) (fuel : Nat) (s : State) (vs vp : List Nat)
    (hs : s.store .networkSsid = some vs) (hp : s.store .networkPassword = some vp)
    (hr : ∀ j, j < 4 → env.kvResult (s.nKv + j) = MBED_SUCCESS) :
    ∃ s1, Quiet s s1 ∧ connectCalls (newEvents s s1) = 0 ∧ begins (newEvents s s1) = [] ∧
      s1.nScans = s.nScans ∧ s1.nStatus = s.nStatus ∧ s1.nClock = s.nClock ∧
      connectToSavedNetwork env fuel s =
        connect env fuel (cstr vs)
          (if Readable env s .networkBssid (s.nKv + 4)
            then some (Bssid.ofBytes (((s.store .networkBssid).getD []).take 6)) else none)
          (cstr vp) s1 := by
  have r0 := hr 0 (by omega)
  have r1 := hr 1 (by omega)
  have r2 := hr 2 (by omega)
  have r3 := hr 3 (by omega)
  simp only [MBED_SUCCESS, Nat.add_zero] at r0 r1 r2 r3
  unfold connectToSavedNetwork
  simp only [kv_get_info, kv_get, kvReadStatus, MBED_SUCCESS, hs, hp, r0, r1, r2, r3,
    Nat.add_assoc, Nat.reduceAdd, ne_eq, not_true_eq_false, not_false_eq_true, if_true, if_false,
    Option.isSome_some, Option.getD_some, List.take_length, Readable]
  split_ifs with c1 c2 c3 c4 c5 c6 c7 c8 c9
  all_goals first
    | (exfalso; simp_all [MBED_ERROR_ITEM_NOT_FOUND]; done)
    | (refine ⟨_, ?_, ?_, ?_, ?_, ?_, ?_, rfl⟩ <;>
        simp [Quiet, newEvents, Serial.print, Serial.println, emit, Event.isProvisioning,
          connectCalls, Event.isConnectEntry, begins])

theorem connectToSavedNetwork_quiet (env : Env) (fuel : Nat) (s s1 : State)
    (h : connectToSavedNetwork env fuel s = some s1) : Quiet s s1 := by
  by_cases hr : Readable env s .networkSsid s.nKv ∧ Readable env s .networkPassword (s.nKv + 2)
  · obtain ⟨⟨a1, a2, a3⟩, b1, b2, b3⟩ := hr
    obtain ⟨vs, hvs⟩ := Option.isSome_iff_exists.mp a1
    obtain ⟨vp, hvp⟩ := Option.isSome_iff_exists.mp b1
    obtain ⟨s2, hq, _, _, _, _, _, heq⟩ := connectToSavedNetwork_readable env fuel s vs vp hvs hvp
      (by
        intro j hj
        have : j = 0 ∨ j = 1 ∨ j = 2 ∨ j = 3 := by omega
        rcases this with rfl | rfl | rfl | rfl
        · simpa using a2
        · exact a3
        · exact b2
        · simpa [Nat.add_assoc] using b3)
    rw [heq] at h
    exact hq.trans (connect_quiet _ _ _ _ _ _ _ h)
  · obtain ⟨s2, h2, hq, _⟩ := connectToSavedNetwork_unreadable env fuel s hr
    rw [h2] at h
    cases h
    exact hq

/-! ## The console -/

theorem clearSerialBuffer_keeps (env : Env) :
    ∀ (fuel : Nat) (s s1 : State), clearSerialBuffer env fuel s = some s1 →
      s1.networks = s.networks ∧ s1.store = s.store ∧ s1.nKv = s.nKv ∧ s1.log = s.log ∧
      s1.nScans = s.nScans := by
  intro fuel
  induction fuel with
  | zero => intro s s1 h; simp [clearSerialBuffer] at h
  | succ f ih =>
    intro s s1 h
    simp only [clearSerialBuffer] at h
    split_ifs at h with h1
    · simpa [Serial.read, Serial.available] using ih _ _ h
    · cases h; simp [Serial.available]

theorem readLine_keeps (env : Env) :
    ∀ (fuel : Nat) (acc : List Nat) (s : State) (r : List Nat × State),
      readLine env fuel acc s = some r →
      r.2.networks = s.networks ∧ r.2.store = s.store ∧ r.2.nKv = s.nKv ∧ r.2.log = s.log ∧
      r.2.nScans = s.nScans := by
  intro fuel
  induction fuel with
  | zero => intro acc s r h; simp [readLine] at h
  | succ f ih =>
    intro acc s r h
    simp only [readLine] at h
    split_ifs at h with h1 h2
    · cases h; simp [Serial.read, Serial.available]
    · simpa [Serial.read, Serial.available] using ih _ _ _ h
    · simpa [Serial.read, Serial.available] using ih _ _ _ h

theorem getPassword_keeps (env : Env) (fuel : Nat) (s : State) (r : List Nat × State)
    (h : getPassword env fuel s = some r) :
    r.2.networks = s.networks ∧ r.2.store = s.store ∧ r.2.nKv = s.nKv ∧
      r.2.nScans = s.nScans := by
  simp only [getPassword, Option.bind_eq_some, Option.map_eq_some'] at h
  obtain ⟨r1, h1, s2, h2, rfl⟩ := h
  have a := readLine_keeps _ _ _ _ _ h1
  have b := clearSerialBuffer_keeps _ _ _ _ h2
  simp [Serial.print, Serial.println, emit] at a ⊢
  simp [a, b]

theorem getServerIP_keeps (env : Env) (fuel : Nat) (s : State) (r : List Nat × State)
    (h : getServerIP env fuel s = some r) :
    r.2.networks = s.networks ∧ r.2.store = s.store ∧ r.2.nKv = s.nKv ∧
      r.2.nScans = s.nScans := by
  simp only [getServerIP, Option.bind_eq_some, Option.map_eq_some'] at h
  obtain ⟨r1, h1, s2, h2, rfl⟩ := h
  have a := readLine_keeps _ _ _ _ _ h1
  have b := clearSerialBuffer_keeps _ _ _ _ h2
  simp [Serial.print, Serial.println, emit] at a ⊢
  simp [a, b]

/-- The trigger window changes nothing but the call counters. -/
theorem awaitTrigger_keeps (env : Env) (start : Nat) :
    ∀ (fuel : Nat) (s : State) (r : Bool × State),
      promptForNetworkSelection.awaitTrigger env start fuel s = some r →
      r.2.networks = s.networks ∧ r.2.store = s.store ∧ r.2.nKv = s.nKv ∧ r.2.log = s.log ∧
      r.2.nScans = s.nScans ∧ r.2.nStatus = s.nStatus := by
  intro fuel
  induction fuel with
  | zero => intro s r h; simp [promptForNetworkSelection.awaitTrigger] at h
  | succ f ih =>
    intro s r h
    simp only [promptForNetworkSelection.awaitTrigger] at h
    split_ifs at h with h1 h2 h3
    · cases h; simp [Serial.read, Serial.available, millis]
    · simpa [Serial.read, Serial.available, millis] using ih _ _ h
    · simpa [Serial.read, Serial.available, millis] using ih _ _ h
    · cases h; simp [millis]

/-- The trigger window reports the trigger only if the character `n` was read. -/
theorem awaitTrigger_true (env : Env) (start : Nat) (hno : ∀ j, toChar (env.input j) ≠ 110) :
    ∀ (fuel : Nat) (s : State) (r : Bool × State),
      promptForNetworkSelection.awaitTrigger env start fuel s = some r → r.1 = false := by
  intro fuel
  induction fuel with
  | zero => intro s r h; simp [promptForNetworkSelection.awaitTrigger] at h
  | succ f ih =>
    intro s r h
    simp only [promptForNetworkSelection.awaitTrigger] at h
    split_ifs at h with h1 h2 h3
    · exact absurd h3 (by simpa [Serial.read] using hno _)
    · exact ih _ _ h
    · exact ih _ _ h
    · cases h; rfl

theorem scanNetworks_rows_quiet (s0 : State) (l : List Nat) :
    ∀ s : State, Quiet s0 s → Quiet s0 (l.foldl scanNetworks.row s) := by
  induction l with
  | nil => intro s h; simpa using h
  | cons i t ih =>
    intro s h
    simp only [List.foldl_cons]
    apply ih
    refine h.trans ?_
    simp [Quiet, newEvents, scanNetworks.row, delay, Serial.print, Serial.println, emit,
      Event.isProvisioning, getEncryptionType]
    cases WiFi.encryptionType s i <;> simp

theorem scanNetworks_quiet (env : Env) (s : State) : Quiet s (scanNetworks env s) := by
  simp only [scanNetworks]
  split_ifs with h
  · simp [Quiet, newEvents, WiFi.scanNetworks, Serial.println, emit, Event.isProvisioning]
  · apply scanNetworks_rows_quiet
    simp [Quiet, newEvents, WiFi.scanNetworks, Serial.print, Serial.println, emit,
      Event.isProvisioning]

theorem selectNetwork_loop_quiet (env : Env) :
    ∀ (fuel : Nat) (s : State) (r : Int × State), selectNetwork.loop env fuel s = some r →
      Quiet s r.2 := by
  intro fuel
  induction fuel with
  | zero => intro s r h; simp [selectNetwork.loop] at h
  | succ f ih =>
    intro s r h
    simp only [selectNetwork.loop] at h
    split_ifs at h with h1 h2 h3 h4 h5
    · cases h
      simp [Quiet, newEvents, Serial.available, Serial.parseInt, WiFi.scanNetworks, Serial.print,
        Serial.println, emit, Event.isProvisioning]
    · cases h
      simp [Quiet, newEvents, Serial.available, Serial.parseInt, WiFi.scanNetworks, Serial.read,
        Event.isProvisioning]
    · refine Quiet.trans ?_ (ih _ _ h)
      simp [Quiet, newEvents, Serial.available, Serial.parseInt, WiFi.scanNetworks, Serial.read,
        Event.isProvisioning]
    · cases h
      simp [Quiet, newEvents, Serial.available, Serial.parseInt, Serial.read]
    · refine Quiet.trans ?_ (ih _ _ h)
      simp [Quiet, newEvents, Serial.available, Serial.parseInt, Serial.read]
    · refine Quiet.trans ?_ (ih _ _ h)
      simp [Quiet, newEvents, Serial.available]

theorem selectNetwork_quiet (env : Env) (fuel : Nat) (s : State) (r : Int × State)
    (h : selectNetwork env fuel s = some r) : Quiet s r.2 := by
  simp only [selectNetwork] at h
  refine Quiet.trans ?_ (selectNetwork_loop_quiet _ _ _ _ h)
  simp [Quiet, newEvents, Serial.println, emit, Event.isProvisioning]

/-- The operator enters nothing during `k` polls and then a number valid for
the scan the check makes: the selection returns that number minus one. -/
theorem selectNetwork_loop_valid (env : Env) (i : Nat) :
    ∀ (k fuel : Nat) (s : State), k < fuel →
      (∀ j, j < k → env.available (s.nAvail + j) ≤ 0) →
      0 < env.available (s.nAvail + k) →
      env.numbers s.nParse = i → 1 ≤ i → i ≤ (env.scans s.nScans).length →
      selectNetwork.loop env fuel s = some ((i : Int) - 1,
        { s with nAvail := s.nAvail + k + 1, nParse := s.nParse + 1, nScans := s.nScans + 1,
                 networks := env.scans s.nScans,
                 log := s.log ++ [Event.scan, Event.print (.text "Selected network: "),
                   Event.println (.bytes (cstr ((env.scans s.nScans).getD (i - 1) default).ssid))] }) := by
  intro k
  induction k with
  | zero =>
    intro fuel s hf _ hav hnum h1 hN
    obtain ⟨f, rfl⟩ : ∃ f, fuel = f + 1 := ⟨fuel - 1, by omega⟩
    simp at hav
    have hpos : (0 : Int) < (i : Int) := by exact_mod_cast h1
    have hle : (i : Int) ≤ ((env.scans s.nScans).length : Int) := by exact_mod_cast hN
    have htn : ((i : Int) - 1).toNat = i - 1 := by omega
    simp [selectNetwork.loop, Serial.available, Serial.parseInt, WiFi.scanNetworks, hav, hnum,
      hpos, hle, Serial.print, Serial.println, emit, WiFi.SSID, WiFi.item, htn]
  | succ k ih =>
    intro fuel s hf hidle hav hnum h1 hN
    obtain ⟨f, rfl⟩ : ∃ f, fuel = f + 1 := ⟨fuel - 1, by omega⟩
    have h0 := hidle 0 (by omega)
    simp at h0
    have := ih f (Serial.available env s).2 (by omega)
      (by
        intro j hj
        have := hidle (j + 1) (by omega)
        simpa [Serial.available, Nat.add_assoc, Nat.add_comm 1 j] using this)
      (by simpa [Serial.available, Nat.add_assoc, Nat.add_comm 1 k] using hav)
      (by simpa [Serial.available] using hnum) h1
      (by simpa [Serial.available] using hN)
    simp only [selectNetwork.loop]
    rw [if_neg (by simpa [Serial.available] using h0), this]
    simp [Serial.available, Nat.add_assoc, Nat.add_comm 1 k]

/-- A selection returned by the loop is the number last entered minus one,
checked against the scan table now in force. -/
theorem selectNetwork_loop_result (env : Env) :
    ∀ (fuel : Nat) (s : State) (r : Int × State), selectNetwork.loop env fuel s = some r →
      r.1 ≠ -1 →
      0 ≤ r.1 ∧ r.1 < r.2.networks.length ∧ 0 < r.2.nParse ∧ 0 < r.2.nScans ∧
        env.numbers (r.2.nParse - 1) = r.1 + 1 ∧ r.2.networks = env.scans (r.2.nScans - 1) := by
  intro fuel
  induction fuel with
  | zero => intro s r h; simp [selectNetwork.loop] at h
  | succ f ih =>
    intro s r h hr
    simp only [selectNetwork.loop] at h
    split_ifs at h with h1 h2 h3 h4 h5
    · cases h
      simp only [Serial.available, Serial.parseInt, WiFi.scanNetworks] at h2 h3
      simp [Serial.available, Serial.parseInt, WiFi.scanNetworks, Serial.print,
        Serial.println, emit]
      omega
    · cases h; exact absurd rfl hr
    · exact ih _ _ h hr
    · cases h; exact absurd rfl hr
    · exact ih _ _ h hr
    · exact ih _ _ h hr

/-- Without an `n` in the input the trigger window ends with `false` at the
first clock reading that shows 10000 ms or more. -/
theorem awaitTrigger_timeout (env : Env) (start : Nat)
    (hno : ∀ j, toChar (env.input j) ≠ 110) :
    ∀ (k fuel : Nat) (s : State), k < fuel →
      (∀ j, j < k → elapsed (env.clock (s.nClock + j) % 4294967296) start < 10000) →
      10000 ≤ elapsed (env.clock (s.nClock + k) % 4294967296) start →
      ∃ s1, promptForNetworkSelection.awaitTrigger env start fuel s = some (false, s1) := by
  intro k
  induction k with
  | zero =>
    intro fuel s hf _ ht
    obtain ⟨f, rfl⟩ : ∃ f, fuel = f + 1 := ⟨fuel - 1, by omega⟩
    simp at ht
    exact ⟨(millis env s).2,
      by simp [promptForNetworkSelection.awaitTrigger, millis, Nat.not_lt.mpr ht]⟩
  | succ k ih =>
    intro fuel s hf hin ht
    obtain ⟨f, rfl⟩ : ∃ f, fuel = f + 1 := ⟨fuel - 1, by omega⟩
    have h0 := hin 0 (by omega)
    simp at h0
    have hrec : ∀ s2 : State, s2.nClock = s.nClock + 1 →
        ∃ s1, promptForNetworkSelection.awaitTrigger env start f s2 = some (false, s1) := by
      intro s2 hs2
      apply ih f s2 (by omega)
      · intro j hj
        have := hin (j + 1) (by omega)
        simpa [hs2, Nat.add_assoc, Nat.add_comm 1 j] using this
      · simpa [hs2, Nat.add_assoc, Nat.add_comm 1 k] using ht
    simp only [promptForNetworkSelection.awaitTrigger]
    rw [if_pos (by simpa [millis] using h0)]
    split_ifs with h2 h3
    · exact absurd h3 (by simpa [Serial.read] using hno _)
    · exact hrec _ (by simp [Serial.read, Serial.available, millis])
    · exact hrec _ (by simp [Serial.available, millis])

/-! ## The whole of `connect` -/

theorem puts_trace (env : Env) (networkIndex : Int) (password serverIP : List Nat) (s : State) :
    (saveNetworkCredentials.puts env networkIndex password serverIP s).2.log
        = s.log ++ newEvents s (saveNetworkCredentials.puts env networkIndex password serverIP s).2 ∧
    kvSets (newEvents s (saveNetworkCredentials.puts env networkIndex password serverIP s).2)
      = (withResults (plannedPuts (WiFi.SSID s networkIndex) (WiFi.BSSID s networkIndex)
            password serverIP) (fun j => env.kvResult (s.nKv + j))).take
          (firstFailure (fun j => env.kvResult (s.nKv + j)) 4 + 1) ∧
    ((saveNetworkCredentials.puts env networkIndex password serverIP s).1 = true ↔
      firstFailure (fun j => env.kvResult (s.nKv + j)) 4 = 4) := by
  by_cases h0 : env.kvResult s.nKv = 0
  · by_cases h1 : env.kvResult (s.nKv + 1) = 0
    · by_cases h2 : env.kvResult (s.nKv + 2) = 0
      · by_cases h3 : env.kvResult (s.nKv + 3) = 0 <;>
        simp [saveNetworkCredentials.puts, kv_set, Serial.print, Serial.println, emit, kvSets,
          firstFailure, withResults, plannedPuts, MBED_SUCCESS, h0, h1, h2, h3, List.enum,
          WiFi.SSID, WiFi.BSSID, WiFi.item, Nat.add_assoc, newEvents]
      · simp [saveNetworkCredentials.puts, kv_set, Serial.print, Serial.println, emit, kvSets,
          firstFailure, withResults, plannedPuts, MBED_SUCCESS, h0, h1, h2, List.enum,
          WiFi.SSID, WiFi.BSSID, WiFi.item, Nat.add_assoc, newEvents]
    · simp [saveNetworkCredentials.puts, kv_set, Serial.print, Serial.println, emit, kvSets,
          firstFailure, withResults, plannedPuts, MBED_SUCCESS, h0, h1, List.enum,
          WiFi.SSID, WiFi.BSSID, WiFi.item, Nat.add_assoc, newEvents]
  · simp [saveNetworkCredentials.puts, kv_set, Serial.print, Serial.println, emit, kvSets,
          firstFailure, withResults, plannedPuts, MBED_SUCCESS, h0, List.enum,
          WiFi.SSID, WiFi.BSSID, WiFi.item, Nat.add_assoc, newEvents]

theorem puts_store (env : Env) (networkIndex : Int) (password serverIP : List Nat) (s : State)
    (j : Nat) (kv : Key × List Nat)
    (hj : (plannedPuts (WiFi.SSID s networkIndex) (WiFi.BSSID s networkIndex)
      password serverIP)[j]? = some kv) :
    (j < firstFailure (fun j => env.kvResult (s.nKv + j)) 4 →
      (saveNetworkCredentials.puts env networkIndex password serverIP s).2.store kv.1
        = some kv.2) ∧
    (firstFailure (fun j => env.kvResult (s.nKv + j)) 4 ≤ j →
      (saveNetworkCredentials.puts env networkIndex password serverIP s).2.store kv.1
        = s.store kv.1) := by
  have hj4 : j = 0 ∨ j = 1 ∨ j = 2 ∨ j = 3 := by
    have : j < 4 := by
      by_contra hc
      have : (plannedPuts (WiFi.SSID s networkIndex) (WiFi.BSSID s networkIndex)
        password serverIP)[j]? = none := by
        apply List.getElem?_eq_none; simp [plannedPuts]; omega
      simp [this] at hj
    omega
  by_cases h0 : env.kvResult s.nKv = 0
  · by_cases h1 : env.kvResult (s.nKv + 1) = 0
    · by_cases h2 : env.kvResult (s.nKv + 2) = 0
      · by_cases h3 : env.kvResult (s.nKv + 3) = 0 <;>
        rcases hj4 with rfl | rfl | rfl | rfl <;>
        simp [plannedPuts] at hj <;> subst hj <;>
        simp [saveNetworkCredentials.puts, kv_set, Serial.print, Serial.println, emit,
          firstFailure, MBED_SUCCESS, h0, h1, h2, h3, Nat.add_assoc]
      · rcases hj4 with rfl | rfl | rfl | rfl <;>
        simp [plannedPuts] at hj <;> subst hj <;>
        simp [saveNetworkCredentials.puts, kv_set, Serial.print, Serial.println, emit,
          firstFailure, MBED_SUCCESS, h0, h1, h2, Nat.add_assoc]
    · rcases hj4 with rfl | rfl | rfl | rfl <;>
        simp [plannedPuts] at hj <;> subst hj <;>
        simp [saveNetworkCredentials.puts, kv_set, Serial.print, Serial.println, emit,
          firstFailure, MBED_SUCCESS, h0, h1, Nat.add_assoc]
  · rcases hj4 with rfl | rfl | rfl | rfl <;>
        simp [plannedPuts] at hj <;> subst hj <;>
        simp [saveNetworkCredentials.puts, kv_set, Serial.print, Serial.println, emit,
          firstFailure, MBED_SUCCESS, h0, Nat.add_assoc]

/-- After the puts the function only prints and connects. -/
theorem saveNetworkCredentials_after_puts (env : Env) (fuel : Nat) (networkIndex : Int)
    (password serverIP : List Nat) (s s1 : State)
    (h : saveNetworkCredentials env fuel networkIndex password serverIP s = some s1) :
    Quiet (saveNetworkCredentials.puts env networkIndex password serverIP s).2 s1 := by
  simp only [saveNetworkCredentials] at h
  split_ifs at h with h1
  · refine Quiet.trans ?_ (connect_quiet _ _ _ _ _ _ _ h)
    simp [Quiet, newEvents, saveNetworkCredentials.summary, printBssid, Serial.print,
      Serial.println, emit, Event.isProvisioning]
  · cases h; exact Quiet.refl _

/-! # The claims -/

/-- C1. When the operator, after any number of idle polls, enters a number `i`
with `1 ≤ i ≤ N`, where `N` is the size of the scan that `selectNetwork` makes
to check it, `selectNetwork` returns `i - 1` and leaves that scan in the
radio's table; the prompts that follow do not touch the table, and the puts
that `saveNetworkCredentials` then makes carry the SSID and the address of the
access point at position `i - 1` of that scan (so these are what the store
holds when the puts succeed). In general a selection that is returned is the
number last entered minus one, in range for the table in force. -/
theorem C1_selection_resolves_to_scanned_row (env : Env) (fuel k : Nat) (s : State)
    (aps : List AccessPoint) (i : Nat) (ap : AccessPoint)
    (hk : k < fuel)
    (hidle : ∀ j, j < k → env.available (s.nAvail + j) ≤ 0)
    (hkey : 0 < env.available (s.nAvail + k))
    (hnum : env.numbers s.nParse = i)
    (hscan : env.scans s.nScans = aps)
    (h1 : 1 ≤ i) (hN : i ≤ aps.length) (hap : aps[i - 1]? = some ap) :
    (∃ s1, selectNetwork env fuel s = some ((i : Int) - 1, s1) ∧ s1.networks = aps ∧
      ∀ (sa : State) (pw ip : List Nat × State), clearSerialBuffer env fuel s1 = some sa →
        getPassword env fuel sa = some pw → getServerIP env fuel pw.2 = some ip →
        ip.2.networks = aps ∧
        kvSets (newEvents ip.2
            (saveNetworkCredentials.puts env ((i : Int) - 1) pw.1 ip.1 ip.2).2)
          = (withResults (plannedPuts (cstr ap.ssid) ap.bssid pw.1 ip.1)
              (fun j => env.kvResult (ip.2.nKv + j))).take
              (firstFailure (fun j => env.kvResult (ip.2.nKv + j)) 4 + 1) ∧
        ((saveNetworkCredentials.puts env ((i : Int) - 1) pw.1 ip.1 ip.2).1 = true →
          (saveNetworkCredentials.puts env ((i : Int) - 1) pw.1 ip.1 ip.2).2.store .networkSsid
            = some (cstr ap.ssid ++ [0]) ∧
          (saveNetworkCredentials.puts env ((i : Int) - 1) pw.1 ip.1 ip.2).2.store .networkBssid
            = some ap.bssid.toBytes)) ∧
    (∀ (fuel0 : Nat) (s0 : State) (r : Int × State), selectNetwork env fuel0 s0 = some r →
      r.1 ≠ -1 → 0 ≤ r.1 ∧ r.1 < r.2.networks.length ∧
        env.numbers (r.2.nParse - 1) = r.1 + 1 ∧ r.2.networks = env.scans (r.2.nScans - 1)) := by
  constructor
  · have hsel := selectNetwork_loop_valid env i k fuel
      (Serial.println
        (.text "Enter the number of the network you want to connect to (or press 's' to skip): ")
        s)
      hk hidle hkey hnum h1 (by simpa [Serial.println, emit, hscan] using hN)
    refine ⟨_, hsel, by simp [Serial.println, emit, hscan], ?_⟩
    intro sa pw ip hsa hpw hip
    have a := clearSerialBuffer_keeps _ _ _ _ hsa
    have b := getPassword_keeps _ _ _ _ hpw
    have c := getServerIP_keeps _ _ _ _ hip
    have hnet : ip.2.networks = aps := by
      rw [c.1, b.1, a.1]; simp [Serial.println, emit, hscan]
    have htn : ((i : Int) - 1).toNat = i - 1 := by omega
    have hitem : WiFi.item ip.2 ((i : Int) - 1) = ap := by
      simp only [WiFi.item, hnet, htn, List.getD_eq_getElem?_getD, hap, Option.getD_some]
    have hS : WiFi.SSID ip.2 ((i : Int) - 1) = cstr ap.ssid := by simp [WiFi.SSID, hitem]
    have hB : WiFi.BSSID ip.2 ((i : Int) - 1) = ap.bssid := by simp [WiFi.BSSID, hitem]
    have ht := puts_trace env ((i : Int) - 1) pw.1 ip.1 ip.2
    rw [hS, hB] at ht
    refine ⟨hnet, ht.2.1, ?_⟩
    intro hok
    have hff := ht.2.2.mp hok
    have p0 := (puts_store env ((i : Int) - 1) pw.1 ip.1 ip.2 0
      (.networkSsid, WiFi.SSID ip.2 ((i : Int) - 1) ++ [0]) (by simp [plannedPuts])).1
      (by omega)
    have p2 := (puts_store env ((i : Int) - 1) pw.1 ip.1 ip.2 2
      (.networkBssid, (WiFi.BSSID ip.2 ((i : Int) - 1)).toBytes) (by simp [plannedPuts])).1
      (by omega)
    rw [hS] at p0
    rw [hB] at p2
    exact ⟨p0, p2⟩
  · intro fuel0 s0 r hr hne
    obtain ⟨a, b, _, _, c, d⟩ := selectNetwork_loop_result env _ _ _ hr hne
    exact ⟨a, b, c, d⟩

/-- Witness of C1: two idle polls, then `2` against a scan of two access points. -/
theorem C1_witness :
    ∃ s1, selectNetwork envSelect 3 State.init = some (1, s1) ∧
      s1.networks = [guestNet, homeNet] ∧
      (saveNetworkCredentials.puts envSelect 1 secret serverAddress s1).2.store .networkBssid
        = some [170, 187, 204, 221, 238, 255] := by
  obtain ⟨s1, h, hn, _⟩ := (C1_selection_resolves_to_scanned_row envSelect 3 2 State.init
    [guestNet, homeNet] 2 homeNet (by decide)
    (by intro j hj; simp [envSelect, State.init, hj])
    (by simp [envSelect, State.init]) rfl rfl (by decide) (by decide) rfl).1
  refine ⟨s1, by simpa using h, hn, ?_⟩
  simp [saveNetworkCredentials.puts, kv_set, envSelect, envDown, MBED_SUCCESS, WiFi.BSSID,
    WiFi.item, hn, homeNet, Bssid.toBytes]

/-- C2. Round trip through the credential store. Let the selected row hold an
SSID without NUL, let password and server address be without NUL, and let the
four puts of `saveNetworkCredentials` succeed. Then the store holds, under the
four keys, exactly the bytes written (SSID, password and server address each
with its terminating NUL, the address as 6 bytes), also at the return of
`saveNetworkCredentials`; a `kv_get` of each key on a working storage returns
those bytes; a following `connectToSavedNetwork` calls `connect` with the same
SSID, the same address and the same password; and `getServerIPAddress` returns
the same server address. -/
theorem C2_credentials_round_trip (env : Env) (networkIndex : Int) (ap : AccessPoint)
    (password serverIP : List Nat) (s : State)
    (hap : s.networks[networkIndex.toNat]? = some ap)
    (hssid : 0 ∉ ap.ssid) (hpw : 0 ∉ password) (hip : 0 ∉ serverIP)
    (hputs : ∀ j, j < 4 → env.kvResult (s.nKv + j) = MBED_SUCCESS) :
    (saveNetworkCredentials.puts env networkIndex password serverIP s).1 = true ∧
    (∀ kv, kv ∈ plannedPuts ap.ssid ap.bssid password serverIP →
      (saveNetworkCredentials.puts env networkIndex password serverIP s).2.store kv.1
        = some kv.2) ∧
    (∀ fuel s1, saveNetworkCredentials env fuel networkIndex password serverIP s = some s1 →
      s1.store = (saveNetworkCredentials.puts env networkIndex password serverIP s).2.store) ∧
    (∀ s2 : State,
      s2.store = (saveNetworkCredentials.puts env networkIndex password serverIP s).2.store →
      (∀ kv, kv ∈ plannedPuts ap.ssid ap.bssid password serverIP →
        env.kvResult s2.nKv = MBED_SUCCESS →
        (kv_get_info env kv.1 s2).1 = MBED_SUCCESS ∧ (kv_get_info env kv.1 s2).2.1 = kv.2.length ∧
        (kv_get env kv.1 kv.2.length s2).1 = MBED_SUCCESS ∧
        (kv_get env kv.1 kv.2.length s2).2.1 = kv.2) ∧
      (∀ fuel, (∀ j, j < 6 → env.kvResult (s2.nKv + j) = MBED_SUCCESS) →
        ∃ s3, Quiet s2 s3 ∧ connectCalls (newEvents s2 s3) = 0 ∧
          connectToSavedNetwork env fuel s2
            = connect env fuel ap.ssid (some ap.bssid) password s3) ∧
      ((∀ j, j < 2 → env.kvResult (s2.nKv + j) = MBED_SUCCESS) →
        (getServerIPAddress env s2).1 = serverIP)) := by
  have hitem : WiFi.item s networkIndex = ap := by
    simp only [WiFi.item, List.getD_eq_getElem?_getD, hap, Option.getD_some]
  have hS : WiFi.SSID s networkIndex = ap.ssid := by
    simp [WiFi.SSID, hitem, cstr_nul_free _ hssid]
  have hB : WiFi.BSSID s networkIndex = ap.bssid := by simp [WiFi.BSSID, hitem]
  have r0 := hputs 0 (by omega)
  have r1 := hputs 1 (by omega)
  have r2 := hputs 2 (by omega)
  have r3 := hputs 3 (by omega)
  simp only [MBED_SUCCESS, Nat.add_zero] at r0 r1 r2 r3
  have hff : firstFailure (fun j => env.kvResult (s.nKv + j)) 4 = 4 := by
    simp [firstFailure, MBED_SUCCESS, r0, r1, r2, r3, Nat.add_assoc]
  have hok := (puts_trace env networkIndex password serverIP s).2.2.mpr hff
  have hstore : ∀ kv, kv ∈ plannedPuts ap.ssid ap.bssid password serverIP →
      (saveNetworkCredentials.puts env networkIndex password serverIP s).2.store kv.1
        = some kv.2 := by
    intro kv hkv
    obtain ⟨j, hj, hget⟩ := List.getElem_of_mem hkv
    have hj4 : j < 4 := by simpa [plannedPuts] using hj
    refine (puts_store env networkIndex password serverIP s j kv ?_).1 (by omega)
    rw [hS, hB, List.getElem?_eq_getElem hj, hget]
  refine ⟨hok, hstore, ?_, ?_⟩
  · intro fuel s1 h1
    exact (saveNetworkCredentials_after_puts _ _ _ _ _ _ _ h1).1
  · intro s2 hs2
    have e1 : s2.store .networkSsid = some (ap.ssid ++ [0]) := by
      rw [hs2]; exact hstore (.networkSsid, ap.ssid ++ [0]) (by simp [plannedPuts])
    have e2 : s2.store .networkPassword = some (password ++ [0]) := by
      rw [hs2]; exact hstore (.networkPassword, password ++ [0]) (by simp [plannedPuts])
    have e3 : s2.store .networkBssid = some ap.bssid.toBytes := by
      rw [hs2]; exact hstore (.networkBssid, ap.bssid.toBytes) (by simp [plannedPuts])
    have e4 : s2.store .serverIp = some (serverIP ++ [0]) := by
      rw [hs2]; exact hstore (.serverIp, serverIP ++ [0]) (by simp [plannedPuts])
    refine ⟨?_, ?_, ?_⟩
    · intro kv hkv hr
      have hkv2 : s2.store kv.1 = some kv.2 := by rw [hs2]; exact hstore kv hkv
      simp only [MBED_SUCCESS] at hr
      simp [kv_get_info, kv_get, kvReadStatus, MBED_SUCCESS, hkv2, hr]
    · intro fuel hr
      obtain ⟨s3, hq, hc, _, _, _, _, heq⟩ := connectToSavedNetwork_readable env fuel s2 _ _ e1 e2
        (fun j hj => hr j (by omega))
      refine ⟨s3, hq, hc, ?_⟩
      have hread : Readable env s2 .networkBssid (s2.nKv + 4) := by
        refine ⟨by simp [e3], hr 4 (by omega), ?_⟩
        simpa [Nat.add_assoc] using hr 5 (by omega)
      rw [heq, if_pos hread]
      have c1 : cstr (ap.ssid ++ [0]) = ap.ssid := cstr_append_nul _ _ hssid
      have c2 : cstr (password ++ [0]) = password := cstr_append_nul _ _ hpw
      have c3 : Bssid.ofBytes (((s2.store .networkBssid).getD []).take 6) = ap.bssid := by
        rw [e3]; cases ap.bssid; rfl
      rw [c1, c2, c3]
    · intro hr
      have q0 := hr 0 (by omega)
      have q1 := hr 1 (by omega)
      simp only [MBED_SUCCESS, Nat.add_zero] at q0 q1
      have c4 : cstr (serverIP ++ [0]) = serverIP := cstr_append_nul _ _ hip
      have c5 : (serverIP ++ [0]).take (serverIP.length + 1) = serverIP ++ [0] :=
        List.take_of_length_le (by simp)
      simp [getServerIPAddress, kv_get_info, kv_get, kvReadStatus, MBED_SUCCESS, e4, q0, q1, c4,
        c5]

/-- Witness of C2: the scenario HomeNet / secret / AA:BB:CC:DD:EE:FF / 10.0.0.5. -/
theorem C2_witness :
    (saveNetworkCredentials.puts envDown 0 secret serverAddress stateScanned).2.store
        .networkSsid = some [72, 111, 109, 101, 78, 101, 116, 0] ∧
    (saveNetworkCredentials.puts envDown 0 secret serverAddress stateScanned).2.store
        .networkPassword = some [115, 101, 99, 114, 101, 116, 0] ∧
    (saveNetworkCredentials.puts envDown 0 secret serverAddress stateScanned).2.store
        .networkBssid = some [170, 187, 204, 221, 238, 255] ∧
    (saveNetworkCredentials.puts envDown 0 secret serverAddress stateScanned).2.store
        .serverIp = some [49, 48, 46, 48, 46, 48, 46, 53, 0] ∧
    (getServerIPAddress envDown
      (saveNetworkCredentials.puts envDown 0 secret serverAddress stateScanned).2).1
        = serverAddress ∧
    ∃ s3, connectToSavedNetwork envDown 30
        (saveNetworkCredentials.puts envDown 0 secret serverAddress stateScanned).2
          = connect envDown 30 homeNet.ssid (some homeNet.bssid) secret s3 := by
  have h := C2_credentials_round_trip envDown 0 homeNet secret serverAddress stateScanned
    rfl (by decide) (by decide) (by decide) (by intro j _; rfl)
  have hs := h.2.1
  have hg := h.2.2.2 _ rfl
  obtain ⟨s3, _, _, h3⟩ := hg.2.1 30 (by intro j _; rfl)
  exact ⟨hs (.networkSsid, _) (by simp [plannedPuts]; rfl),
    hs (.networkPassword, _) (by simp [plannedPuts]; rfl),
    hs (.networkBssid, _) (by simp [plannedPuts]; rfl),
    hs (.serverIp, _) (by simp [plannedPuts]; rfl),
    hg.2.2 (by intro j _; rfl), s3, h3⟩

/-- C3. `saveNetworkCredentials` attempts its puts in the order network-ssid,
network-password, network-bssid, server-ip, and whatever statuses the storage
returns, the puts attempted are the planned ones up to and including the first
failing one; all four succeeded exactly when none fails; every key before the
first failure holds the new value and every key after it keeps its previous
store content. The rest of `saveNetworkCredentials` makes no further put and
leaves the store as the puts left it. -/
theorem C3_puts_stop_at_first_failure (env : Env) (networkIndex : Int)
    (password serverIP : List Nat) (s : State) :
    (saveNetworkCredentials.puts env networkIndex password serverIP s).2.log
        = s.log ++ newEvents s (saveNetworkCredentials.puts env networkIndex password serverIP s).2 ∧
    kvSets (newEvents s (saveNetworkCredentials.puts env networkIndex password serverIP s).2)
      = (withResults (plannedPuts (WiFi.SSID s networkIndex) (WiFi.BSSID s networkIndex)
            password serverIP) (fun j => env.kvResult (s.nKv + j))).take
          (firstFailure (fun j => env.kvResult (s.nKv + j)) 4 + 1) ∧
    ((saveNetworkCredentials.puts env networkIndex password serverIP s).1 = true ↔
      firstFailure (fun j => env.kvResult (s.nKv + j)) 4 = 4) ∧
    (∀ j kv, (plannedPuts (WiFi.SSID s networkIndex) (WiFi.BSSID s networkIndex)
        password serverIP)[j]? = some kv →
      (j < firstFailure (fun j => env.kvResult (s.nKv + j)) 4 →
        (saveNetworkCredentials.puts env networkIndex password serverIP s).2.store kv.1
          = some kv.2) ∧
      (firstFailure (fun j => env.kvResult (s.nKv + j)) 4 < j →
        (saveNetworkCredentials.puts env networkIndex password serverIP s).2.store kv.1
          = s.store kv.1)) ∧
    (∀ fuel s1, saveNetworkCredentials env fuel networkIndex password serverIP s = some s1 →
      s1.store = (saveNetworkCredentials.puts env networkIndex password serverIP s).2.store ∧
      kvSets s1.log
        = kvSets (saveNetworkCredentials.puts env networkIndex password serverIP s).2.log) := by
  have ht := puts_trace env networkIndex password serverIP s
  refine ⟨ht.1, ht.2.1, ht.2.2, ?_, ?_⟩
  · intro j kv hj
    have hs := puts_store env networkIndex password serverIP s j kv hj
    exact ⟨hs.1, fun h => hs.2 (by omega)⟩
  · intro fuel s1 h1
    have hq := saveNetworkCredentials_after_puts _ _ _ _ _ _ _ h1
    exact ⟨hq.1, hq.kvSets_eq⟩

/-- Witness of C3: the third put fails; three puts are attempted, SSID and
password are stored, address and server address are not. -/
theorem C3_witness :
    kvSets (newEvents stateScanned
        (saveNetworkCredentials.puts envThirdPutFails 0 secret serverAddress stateScanned).2)
      = [(.networkSsid, [72, 111, 109, 101, 78, 101, 116, 0], 0),
         (.networkPassword, [115, 101, 99, 114, 101, 116, 0], 0),
         (.networkBssid, [170, 187, 204, 221, 238, 255], -1)] ∧
    (saveNetworkCredentials.puts envThirdPutFails 0 secret serverAddress stateScanned).2.store
        .networkPassword = some [115, 101, 99, 114, 101, 116, 0] ∧
    (saveNetworkCredentials.puts envThirdPutFails 0 secret serverAddress stateScanned).2.store
        .serverIp = none := by
  have h := C3_puts_stop_at_first_failure envThirdPutFails 0 secret serverAddress stateScanned
  refine ⟨h.2.1.trans (by decide), ?_, ?_⟩
  · exact ((h.2.2.2.1 1 (.networkPassword, secret ++ [0]) (by decide)).1 (by decide)).trans rfl
  · exact ((h.2.2.2.1 3 (.serverIp, serverAddress ++ [0]) (by decide)).2 (by decide)).trans rfl

/-- C5, the claim as stated fails: the first poll of the wait, made at once
after `WiFi.begin`, reports the link up, the status query after the loop
reports it down, and `connect` prints the failure line. -/
theorem C5_counterexample :
    envFlap.linkUp 0 = true ∧
    (connect envFlap 1 homeNet.ssid none secret State.init).map (fun s => s.log.getLast?)
      = some (some (Event.println (.text "Failed to connect to WiFi"))) := by
  decide

/-- C5, amended. The wait ends at the first poll `k` that reports the link up
or whose clock reading shows an elapsed time of 10000 ms or more, after `k`
delays; `connect` then prints the outcome of one further status query:
`Connected to WiFi` if it reports the link up, the failure line if not. -/
theorem C5_outcome_follows_last_status_query (env : Env) (fuel k : Nat) (s : State)
    (hk : k < fuel)
    (hdown : ∀ j, j < k → env.linkUp (s.nStatus + j) = false ∧
      elapsed (env.clock (s.nClock + 1 + j) % 4294967296) (env.clock s.nClock % 4294967296)
        < 10000)
    (hexit : env.linkUp (s.nStatus + k) = true ∨
      10000 ≤ elapsed (env.clock (s.nClock + 1 + k) % 4294967296)
        (env.clock s.nClock % 4294967296)) :
    ∃ s1, connect.awaitLink env fuel s = some s1 ∧
      newEvents s s1 = waitTrace k ++ [outcomeLine (env.linkUp (s.nStatus + k + 1))] ∧
      (env.linkUp (s.nStatus + k + 1) = true →
        s1.log.getLast? = some (Event.println (.text "Connected to WiFi"))) ∧
      (env.linkUp (s.nStatus + k + 1) = false →
        s1.log.getLast? = some (Event.println (.text "Failed to connect to WiFi"))) := by
  have hloop : ∃ c, connect.waitLoop env (millis env s).1 fuel (millis env s).2 =
      some { (millis env s).2 with nStatus := s.nStatus + k + 1, nClock := c,
                                   log := s.log ++ waitTrace k } := by
    by_cases hup : env.linkUp (s.nStatus + k) = true
    · exact ⟨_, waitLoop_up env _ k fuel (millis env s).2 hk
        (by simpa [millis] using hdown) (by simpa [millis] using hup)⟩
    · have hdn : env.linkUp (s.nStatus + k) = false := by simpa using hup
      exact ⟨_, waitLoop_timeout env _ k fuel (millis env s).2 hk
        (by simpa [millis] using hdown) (by simpa [millis] using hdn)
        (by simpa [millis] using hexit.resolve_left hup)⟩
  obtain ⟨c, hc⟩ := hloop
  rw [connect.awaitLink, hc]
  refine ⟨_, rfl, ?_, ?_, ?_⟩
  · simp only [connect.report, WiFi.status, outcomeLine]
    split_ifs <;> simp [newEvents, Serial.println, emit, millis]
  · intro hfin
    simp [connect.report, WiFi.status, hfin, Serial.println, emit]
  · intro hfin
    simp [connect.report, WiFi.status, hfin, Serial.println, emit]

/-- Witness of C5 at the boundary: 10000 ms elapsed without link-up gives the
failure line; link-up at the poll made at 9999 ms gives `Connected to WiFi`. -/
theorem C5_witness :
    (∃ s1, connect.awaitLink envDown 20 State.init = some s1 ∧
      s1.log.getLast? = some (Event.println (.text "Failed to connect to WiFi"))) ∧
    (∃ s1, connect.awaitLink envLate 20 State.init = some s1 ∧
      s1.log.getLast? = some (Event.println (.text "Connected to WiFi"))) := by
  constructor
  · obtain ⟨s1, h, _, _, hf⟩ := C5_outcome_follows_last_status_query envDown 20 19 State.init
      (by decide)
      (by intro j hj; interval_cases j <;> simp [envDown, State.init, elapsed])
      (Or.inr (by decide))
    exact ⟨s1, h, hf rfl⟩
  · obtain ⟨s1, h, _, hc, _⟩ := C5_outcome_follows_last_status_query envLate 20 19 State.init
      (by decide)
      (by intro j hj; interval_cases j <;> simp [envLate, envDown, State.init, elapsed])
      (Or.inl (by decide))
    exact ⟨s1, h, hc (by decide)⟩

/-- C7. `connectToWiFi` with the link up only queries the status: the state
is unchanged but for the count of status queries, so there is no store read,
no scan and no `connect`. With the link down it calls `connect` only if both
the network-ssid and the network-password entries are readable; otherwise it
returns without a `connect`, a `WiFi.begin` or a scan and leaves the store
unchanged, in particular when no credentials were ever saved, where it reads
the SSID entry once and reports the failure. -/
theorem C7_connectToWiFi_guards (env : Env) (fuel : Nat) (s : State) :
    (env.linkUp s.nStatus = true →
      connectToWiFi env fuel s = some { s with nStatus := s.nStatus + 1 }) ∧
    (env.linkUp s.nStatus = false →
      ¬ (Readable env s .networkSsid s.nKv ∧ Readable env s .networkPassword (s.nKv + 2)) →
      ∃ s1, connectToWiFi env fuel s = some s1 ∧ s1.store = s.store ∧
        s1.log = s.log ++ newEvents s s1 ∧ s1.nScans = s.nScans ∧
        connectCalls (newEvents s s1) = 0 ∧ begins (newEvents s s1) = []) ∧
    (env.linkUp s.nStatus = false → (∀ key, s.store key = none) →
      ∃ s1 code, connectToWiFi env fuel s = some s1 ∧ s1.store = s.store ∧
        s1.nScans = s.nScans ∧ code ≠ MBED_SUCCESS ∧
        newEvents s s1 =
          [Event.println (.text "WiFi not connected. Attempting to connect..."),
           Event.kvGetInfo .networkSsid code,
           Event.print (.text "Failed to read SSID info with error code "),
           Event.println (.num code)]) ∧
    (∀ s1, connectToWiFi env fuel s = some s1 → 0 < connectCalls (newEvents s s1) →
      env.linkUp s.nStatus = false ∧ Readable env s .networkSsid s.nKv ∧
        Readable env s .networkPassword (s.nKv + 2)) := by
  have hup : env.linkUp s.nStatus = true →
      connectToWiFi env fuel s = some { s with nStatus := s.nStatus + 1 } := by
    intro h
    simp [connectToWiFi, WiFi.status, h]
  have hdown : env.linkUp s.nStatus = false →
      ¬ (Readable env s .networkSsid s.nKv ∧ Readable env s .networkPassword (s.nKv + 2)) →
      ∃ s1, connectToWiFi env fuel s = some s1 ∧ s1.store = s.store ∧
        s1.log = s.log ++ newEvents s s1 ∧ s1.nScans = s.nScans ∧
        connectCalls (newEvents s s1) = 0 ∧ begins (newEvents s s1) = [] := by
    intro h hr
    obtain ⟨s1, h1, hq, hsc, _, _, hc, hb⟩ := connectToSavedNetwork_unreadable env fuel
      (Serial.println (.text "WiFi not connected. Attempting to connect...") (WiFi.status env s).2)
      (by simpa [Readable, Serial.println, emit, WiFi.status] using hr)
    have hq0 : Quiet s
        (Serial.println (.text "WiFi not connected. Attempting to connect...")
          (WiFi.status env s).2) := by
      simp [Quiet, newEvents, Serial.println, emit, WiFi.status, Event.isProvisioning]
    have hn := newEvents_append (newEvents _ s1) hq0.2.1 hq.2.1
    have hrun : connectToWiFi env fuel s = some s1 := by
      rw [← h1]
      simp [connectToWiFi, WiFi.status, h]
    refine ⟨s1, hrun, ?_, (hq0.trans hq).2.1, ?_, ?_, ?_⟩
    · simpa [Serial.println, emit, WiFi.status] using hq.1
    · simpa [Serial.println, emit, WiFi.status] using hsc
    · rw [hn, connectCalls_append, hc]
      simp [newEvents, Serial.println, emit, WiFi.status, connectCalls, Event.isConnectEntry]
    · rw [hn, begins_append, hb]
      simp [newEvents, Serial.println, emit, WiFi.status, begins]
  refine ⟨hup, hdown, ?_, ?_⟩
  · intro h hnone
    have hne : ¬ kvReadStatus env .networkSsid
        (Serial.println (.text "WiFi not connected. Attempting to connect...")
          (WiFi.status env s).2) = 0 := by
      rw [kvReadStatus_eq_zero]
      simp [Serial.println, emit, WiFi.status, hnone]
    refine ⟨Serial.println
        (.num (kvReadStatus env .networkSsid
          (Serial.println (.text "WiFi not connected. Attempting to connect...")
            (WiFi.status env s).2)))
        (Serial.print (.text "Failed to read SSID info with error code ")
          (kv_get_info env .networkSsid
            (Serial.println (.text "WiFi not connected. Attempting to connect...")
              (WiFi.status env s).2)).2.2),
      kvReadStatus env .networkSsid
        (Serial.println (.text "WiFi not connected. Attempting to connect...")
          (WiFi.status env s).2), ?_, ?_, ?_, hne, ?_⟩
    · simp only [connectToWiFi, WiFi.status, h, connectToSavedNetwork, kv_get_info, MBED_SUCCESS]
      simp only [WiFi.status] at hne
      simp [hne]
    · simp [Serial.print, Serial.println, emit, WiFi.status, kv_get_info]
    · simp [Serial.print, Serial.println, emit, WiFi.status, kv_get_info]
    · simp [newEvents, Serial.print, Serial.println, emit, WiFi.status, kv_get_info]
  · intro s1 h1 hpos
    by_cases hl : env.linkUp s.nStatus = true
    · rw [hup hl] at h1
      cases h1
      simp [newEvents, connectCalls] at hpos
    · have hl2 : env.linkUp s.nStatus = false := by simpa using hl
      by_cases hr : Readable env s .networkSsid s.nKv ∧
          Readable env s .networkPassword (s.nKv + 2)
      · exact ⟨hl2, hr⟩
      · obtain ⟨s2, h2, _, _, _, hc, _⟩ := hdown hl2 hr
        rw [h2] at h1
        cases h1
        omega

/-- Witness of C7: link up, and link down on a node without saved credentials. -/
theorem C7_witness :
    connectToWiFi envUp 5 State.init = some { State.init with nStatus := 1 } ∧
    ∃ s1, connectToWiFi envDown 5 State.init = some s1 ∧
      connectCalls (newEvents State.init s1) = 0 ∧ begins (newEvents State.init s1) = [] := by
  have hu := (C7_connectToWiFi_guards envUp 5 State.init).1 rfl
  obtain ⟨s1, h1, _, _, _, hc, hb⟩ := (C7_connectToWiFi_guards envDown 5 State.init).2.1 rfl
    (by simp [Readable, State.init])
  exact ⟨hu, s1, h1, hc, hb⟩

/-- C8, the claim as stated fails: with SSID and password saved and no
network-bssid entry, the read of network-bssid fails and `connectToSavedNetwork`
still calls `connect`, which issues `WiFi.begin` with the saved SSID and
password. -/
theorem C8_counterexample :
    stateNoBssid.store .networkBssid = none ∧
    (kv_get_info envDown .networkBssid stateNoBssid).1 ≠ MBED_SUCCESS ∧
    (connectToSavedNetwork envDown 21 stateNoBssid).map
        (fun s => (connectCalls s.log, begins s.log))
      = some (1, [([72, 111, 109, 101, 78, 101, 116], [115, 101, 99, 114, 101, 116])]) := by
  decide

/-- C8, amended. In `connectToSavedNetwork` a failed or not-found read of
network-ssid or network-password is treated as no saved credentials: the
function returns without any `connect` call, `WiFi.begin` or scan. A failed or
not-found read of network-bssid is not: with the other two entries readable,
`connect` is called with the saved SSID and password and without an address. -/
theorem C8_unreadable_ssid_or_password_no_connect (env : Env) (fuel : Nat) (s : State) :
    (¬ (Readable env s .networkSsid s.nKv ∧ Readable env s .networkPassword (s.nKv + 2)) →
      ∃ s1, connectToSavedNetwork env fuel s = some s1 ∧ s1.store = s.store ∧
        s1.log = s.log ++ newEvents s s1 ∧ s1.nScans = s.nScans ∧
        connectCalls (newEvents s s1) = 0 ∧ begins (newEvents s s1) = []) ∧
    (∀ vs vp, s.store .networkSsid = some vs → s.store .networkPassword = some vp →
      (∀ j, j < 4 → env.kvResult (s.nKv + j) = MBED_SUCCESS) →
      ¬ Readable env s .networkBssid (s.nKv + 4) →
      ∃ s1, Quiet s s1 ∧ connectCalls (newEvents s s1) = 0 ∧ begins (newEvents s s1) = [] ∧
        connectToSavedNetwork env fuel s = connect env fuel (cstr vs) none (cstr vp) s1) := by
  constructor
  · intro hr
    obtain ⟨s1, h1, hq, hsc, _, _, hc, hb⟩ := connectToSavedNetwork_unreadable env fuel s hr
    exact ⟨s1, h1, hq.1, hq.2.1, hsc, hc, hb⟩
  · intro vs vp hs hp hr hb
    obtain ⟨s1, hq, hc, hbg, _, _, _, heq⟩ := connectToSavedNetwork_readable env fuel s vs vp hs hp hr
    rw [if_neg hb] at heq
    exact ⟨s1, hq, hc, hbg, heq⟩

/-- Witness of C8: nothing saved, and SSID and password saved without an address. -/
theorem C8_witness :
    (∃ s1, connectToSavedNetwork envDown 5 State.init = some s1 ∧
      connectCalls (newEvents State.init s1) = 0) ∧
    (∃ s1, connectToSavedNetwork envDown 5 stateNoBssid
      = connect envDown 5 [72, 111, 109, 101, 78, 101, 116] none [115, 101, 99, 114, 101, 116]
          s1) := by
  constructor
  · obtain ⟨s1, h1, _, _, _, hc, _⟩ :=
      (C8_unreadable_ssid_or_password_no_connect envDown 5 State.init).1
        (by simp [Readable, State.init])
    exact ⟨s1, h1, hc⟩
  · obtain ⟨s1, _, _, _, h1⟩ :=
      (C8_unreadable_ssid_or_password_no_connect envDown 5 stateNoBssid).2 _ _ rfl rfl
        (by intro j _; rfl) (by simp [Readable, stateNoBssid, State.init])
    exact ⟨s1, h1⟩

/-- C9. Let the trigger window of `promptForNetworkSelection` end with result
`t` (`true`: the character `n` was read within 10000 ms; `false`: the window
elapsed). The window itself prints and stores nothing, and it ends with `true`
only if an `n` is in the input. If it ends with `false`, or if it ends with
`true` and `selectNetwork` returns -1 (skip), the rest of the run is one call
of `connectToSavedNetwork` on a state with the store as it was, reached
without any put and without the password or server-address prompt; that call
makes no put and no such prompt either, so the whole run leaves the store
unchanged. Without an `n` in the input the window does end with `false`, at
the first clock reading of 10000 ms or more. -/
theorem C9_no_provisioning_without_selection (env : Env) (fuel : Nat) (s : State) :
    (∀ t : Bool × State,
      promptForNetworkSelection.awaitTrigger env
        (millis env (Serial.println
          (.text "Press 'n' within 10 seconds to select a new network.") s)).1 fuel
        (millis env (Serial.println
          (.text "Press 'n' within 10 seconds to select a new network.") s)).2 = some t →
      (t.2.store = s.store ∧
        t.2.log = s.log ++
          [Event.println (.text "Press 'n' within 10 seconds to select a new network.")]) ∧
      ((∀ j, toChar (env.input j) ≠ 110) → t.1 = false) ∧
      (t.1 = false →
        Quiet s (Serial.println (.text "Timeout reached. Using saved credentials.") t.2) ∧
        promptForNetworkSelection env fuel s
          = connectToSavedNetwork env fuel
              (Serial.println (.text "Timeout reached. Using saved credentials.") t.2)) ∧
      (t.1 = true → ∀ sel : Int × State,
        selectNetwork env fuel
          (scanNetworks env (Serial.println (.text "Scanning for networks...") t.2)) = some sel →
        sel.1 = -1 →
        Quiet s (Serial.println
          (.text "Skipped network selection. Will attempt to use saved credentials if available.")
          sel.2) ∧
        promptForNetworkSelection env fuel s
          = connectToSavedNetwork env fuel
              (Serial.println
                (.text
                  "Skipped network selection. Will attempt to use saved credentials if available.")
                sel.2)) ∧
      (∀ s1, promptForNetworkSelection env fuel s = some s1 →
        (t.1 = false ∨ ∃ sel : Int × State,
          selectNetwork env fuel
            (scanNetworks env (Serial.println (.text "Scanning for networks...") t.2)) = some sel ∧
          sel.1 = -1) →
        Quiet s s1)) ∧
    (∀ s0 s1, connectToSavedNetwork env fuel s0 = some s1 → Quiet s0 s1) ∧
    (∀ k, k < fuel → (∀ j, toChar (env.input j) ≠ 110) →
      (∀ j, j < k → elapsed (env.clock (s.nClock + 1 + j) % 4294967296)
        (env.clock s.nClock % 4294967296) < 10000) →
      10000 ≤ elapsed (env.clock (s.nClock + 1 + k) % 4294967296)
        (env.clock s.nClock % 4294967296) →
      ∃ s1, promptForNetworkSelection.awaitTrigger env
        (millis env (Serial.println
          (.text "Press 'n' within 10 seconds to select a new network.") s)).1 fuel
        (millis env (Serial.println
          (.text "Press 'n' within 10 seconds to select a new network.") s)).2
          = some (false, s1)) := by
  refine ⟨?_, fun s0 s1 h => connectToSavedNetwork_quiet _ _ _ _ h, ?_⟩
  · intro t ht
    have hk := awaitTrigger_keeps _ _ _ _ _ ht
    have hstore : t.2.store = s.store := by
      simpa [millis, Serial.println, emit] using hk.2.1
    have hlog : t.2.log = s.log ++
        [Event.println (.text "Press 'n' within 10 seconds to select a new network.")] := by
      simpa [millis, Serial.println, emit] using hk.2.2.2.1
    have hqt : Quiet s t.2 := by
      refine ⟨hstore, ?_, ?_⟩ <;> simp [newEvents, hlog, Event.isProvisioning]
    have hq1 : Quiet s (Serial.println (.text "Timeout reached. Using saved credentials.") t.2) := by
      refine hqt.trans ?_
      simp [Quiet, newEvents, Serial.println, emit, Event.isProvisioning]
    have hrun1 : t.1 = false → promptForNetworkSelection env fuel s
        = connectToSavedNetwork env fuel
            (Serial.println (.text "Timeout reached. Using saved credentials.") t.2) := by
      intro h
      simp [promptForNetworkSelection, ht, h]
    have hskip : t.1 = true → ∀ sel : Int × State,
        selectNetwork env fuel
          (scanNetworks env (Serial.println (.text "Scanning for networks...") t.2)) = some sel →
        sel.1 = -1 →
        Quiet s (Serial.println
          (.text "Skipped network selection. Will attempt to use saved credentials if available.")
          sel.2) ∧
        promptForNetworkSelection env fuel s
          = connectToSavedNetwork env fuel
              (Serial.println
                (.text
                  "Skipped network selection. Will attempt to use saved credentials if available.")
                sel.2) := by
      intro h sel hsel hm
      constructor
      · refine hqt.trans (Quiet.trans ?_ (Quiet.trans (scanNetworks_quiet env _)
          (Quiet.trans (selectNetwork_quiet _ _ _ _ hsel) ?_)))
        · simp [Quiet, newEvents, Serial.println, emit, Event.isProvisioning]
        · simp [Quiet, newEvents, Serial.println, emit, Event.isProvisioning]
      · simp [promptForNetworkSelection, ht, h, promptForNetworkSelection.provision, hsel, hm]
    refine ⟨⟨hstore, hlog⟩, fun hno => awaitTrigger_true _ _ hno _ _ _ ht, fun h => ⟨hq1, hrun1 h⟩,
      hskip, ?_⟩
    intro s1 h1 hcase
    rcases hcase with hf | ⟨sel, hsel, hm⟩
    · rw [hrun1 hf] at h1
      exact hq1.trans (connectToSavedNetwork_quiet _ _ _ _ h1)
    · cases htv : t.1 with
      | false =>
        rw [hrun1 htv] at h1
        exact hq1.trans (connectToSavedNetwork_quiet _ _ _ _ h1)
      | true =>
        obtain ⟨hq, hrun⟩ := hskip htv sel hsel hm
        rw [hrun] at h1
        exact hq.trans (connectToSavedNetwork_quiet _ _ _ _ h1)
  · intro k hk hno hin hout
    exact awaitTrigger_timeout env _ hno k fuel _ hk
      (by simpa [millis, Serial.println, emit] using hin)
      (by simpa [millis, Serial.println, emit] using hout)

/-- Witness of C9: a silent console for 10000 ms, and `n` followed by `s`. -/
theorem C9_witness :
    (∃ s1, promptForNetworkSelection envDown 30 State.init = some s1 ∧ Quiet State.init s1) ∧
    (∃ s1, promptForNetworkSelection envSkip 3 State.init = some s1 ∧ Quiet State.init s1) := by
  constructor
  · have h := (C9_no_provisioning_without_selection envDown 30 State.init).1
      (false, ⟨21, 0, 0, 19, 0, 0, 0, [], fun _ => none,
        [Event.println (.text "Press 'n' within 10 seconds to select a new network.")]⟩)
      (by rfl)
    have hrun : (promptForNetworkSelection envDown 30 State.init).isSome = true := by
      rw [(h.2.2.1 rfl).2]
      decide
    obtain ⟨s1, h1⟩ := Option.isSome_iff_exists.mp hrun
    exact ⟨s1, h1, h.2.2.2.2 s1 h1 (Or.inl rfl)⟩
  · have h := (C9_no_provisioning_without_selection envSkip 3 State.init).1
      (true, ⟨2, 0, 0, 1, 1, 0, 0, [], fun _ => none,
        [Event.println (.text "Press 'n' within 10 seconds to select a new network.")]⟩)
      (by rfl)
    have hsome : (selectNetwork envSkip 3
        (scanNetworks envSkip (Serial.println (.text "Scanning for networks...")
          ⟨2, 0, 0, 1, 1, 0, 0, [], fun _ => none,
            [Event.println (.text "Press 'n' within 10 seconds to select a new network.")]⟩))).isSome
        = true := by decide
    obtain ⟨sel, hsel⟩ := Option.isSome_iff_exists.mp hsome
    have hm : sel.1 = -1 := by
      have h2 := congrArg (Option.map Prod.fst) hsel
      have h3 : Option.map Prod.fst (selectNetwork envSkip 3
        (scanNetworks envSkip (Serial.println (.text "Scanning for networks...")
          ⟨2, 0, 0, 1, 1, 0, 0, [], fun _ => none,
            [Event.println (.text "Press 'n' within 10 seconds to select a new network.")]⟩)))
          = some (-1) := by decide
      rw [h3] at h2
      simpa using h2.symm
    have hrun : (promptForNetworkSelection envSkip 3 State.init).isSome = true := by decide
    obtain ⟨s1, h1⟩ := Option.isSome_iff_exists.mp hrun
    exact ⟨s1, h1, h.2.2.2.2 s1 h1 (Or.inr ⟨sel, hsel, hm⟩)⟩

/-- C10, the claim as stated fails: the clock advances by 2^32 ms, which is at
least 500 ms, across each delay, the elapsed time `(now - start) mod 2^32`
stays 0, and with the link down the wait does not end after 20 delays nor
after any other number. -/
theorem C10_counterexample :
    (∀ k, envWrap.clock k + 500 ≤ envWrap.clock (k + 1)) ∧
    (∀ j, envWrap.linkUp j = false) ∧
    connect.waitLoop envWrap (millis envWrap State.init).1 21 (millis envWrap State.init).2
      = none ∧
    ∀ fuel, connect.waitLoop envWrap (millis envWrap State.init).1 fuel
      (millis envWrap State.init).2 = none := by
  have hall : ∀ (fuel : Nat) (s : State), connect.waitLoop envWrap 0 fuel s = none := by
    intro fuel
    induction fuel with
    | zero => intro s; rfl
    | succ f ih =>
      intro s
      simp [connect.waitLoop, WiFi.status, millis, envWrap, envDown, elapsed]
      exact ih _
  refine ⟨?_, fun _ => rfl, hall _ _, fun fuel => hall _ _⟩
  intro k
  simp [envWrap]
  omega

/-- C10, amended. Under a clock that advances by at least 500 ms and at most
2^32 - 10000 ms across each 500 ms delay, with the elapsed time computed as
`(now - start) mod 2^32`, and for every sequence of link-status readings, the
wait ends after `k ≤ 20` delays, at the first poll that reports the link up or
whose clock reading shows 10000 ms or more, also when the counter wraps. -/
theorem C10_wait_ends_within_twenty_delays (env : Env) (start fuel : Nat) (s : State)
    (hstart : start < 4294967296) (hfuel : 20 < fuel)
    (hadv : ∀ j, env.clock (s.nClock + j) + 500 ≤ env.clock (s.nClock + j + 1) ∧
      env.clock (s.nClock + j + 1) ≤ env.clock (s.nClock + j) + 4294957296) :
    ∃ k s1, k ≤ 20 ∧ connect.waitLoop env start fuel s = some s1 ∧
      s1.log = s.log ++ waitTrace k ∧
      (∀ j, j < k → env.linkUp (s.nStatus + j) = false ∧
        elapsed (env.clock (s.nClock + j) % 4294967296) start < 10000) ∧
      (env.linkUp (s.nStatus + k) = true ∨
        10000 ≤ elapsed (env.clock (s.nClock + k) % 4294967296) start) := by
  obtain ⟨k, s1, hk, h, hl, _, _, hmin, hex⟩ :=
    waitLoop_within_budget env start fuel s hstart hfuel hadv
  exact ⟨k, s1, hk, h, hl, hmin, hex⟩

/-- Witness of C10: the counter wraps during the wait. -/
theorem C10_witness :
    ∃ k s1, k ≤ 20 ∧
      connect.waitLoop envNearWrap (millis envNearWrap State.init).1 21
        (millis envNearWrap State.init).2 = some s1 ∧
      s1.log = waitTrace k := by
  obtain ⟨k, s1, hk, h, hl, _⟩ := C10_wait_ends_within_twenty_delays envNearWrap
    (millis envNearWrap State.init).1 21 (millis envNearWrap State.init).2
    (by decide) (by decide)
    (by intro j; simp [envNearWrap, millis, State.init]; omega)
  exact ⟨k, s1, hk, h, by simpa [millis, State.init] using hl⟩

end WiFiConnection
